import Mathlib

/-!
A verification development for the pain-map coordinate-to-anatomical-region
resolution engine of `src/client/src/components/steps/PainMappingStep.tsx`:
the hotspot catalog data, the click resolver `handleImageClick`, and the
pain-area store operations (`removePainArea`, `handleIntensityChange`, and
the notes-based view filter used when rendering markers), together with
theorems about them.

JavaScript numbers are modelled as exact rationals; intensities and
timestamps as integers. `Math.sqrt` appears in the source only inside the
nearest-hotspot comparison `distance < minDistance`; since the square root
is strictly monotone on nonnegative reals, the embedding carries the squared
distance through the loop, and the lemmas `sqrt_distSq_le` and
`sqrt_distSq_lt` below transport the resulting facts back to genuine
Euclidean distances.
-/

/- Batteries marks the arithmetic on `Rat` as `@[irreducible]`; re-expose it
so that concrete rational arithmetic can be evaluated by `decide`. This only
changes elaborator unfolding hints, not the definitional equalities the
kernel checks. -/
set_option allowUnsafeReducibility true in
attribute [semireducible] Rat.ofScientific Rat.add Rat.sub Rat.mul Rat.inv

set_option maxRecDepth 16000

namespace PainMapping

/-- The two body views (`type BodyView = 'front' | 'back'`). -/
inductive BodyView
  | front
  | back
deriving DecidableEq, Repr

/-- A catalog entry (`interface Hotspot`) with a normalized bounding box.
The optional field `isDetail?: boolean` defaults to `false` when omitted in
the catalog literal. -/
structure Hotspot where
  id : Nat
  name : String
  x : ℚ
  y : ℚ
  width : ℚ
  height : ℚ
  isDetail : Bool := false
deriving DecidableEq, Repr

/-- Entries 1-34 of the `frontHotspots` catalog literal (the literal is split into chunks purely for elaboration speed; `frontHotspots` below is their concatenation in source order). -/
def frontHotspotsChunk0 : List Hotspot := [
  { id := 1, name := ("Forehead (Central Superior)"), x := 0.45, y := 0.005, width := 0.1, height := 0.02 },
  { id := 1, name := ("Forehead (Central Inferior)"), x := 0.45, y := 0.025, width := 0.1, height := 0.02 },
  { id := 1, name := ("Forehead (Left Superior)"), x := 0.37, y := 0.005, width := 0.08, height := 0.02 },
  { id := 1, name := ("Forehead (Left Inferior)"), x := 0.37, y := 0.025, width := 0.08, height := 0.02 },
  { id := 1, name := ("Forehead (Right Superior)"), x := 0.55, y := 0.005, width := 0.08, height := 0.02 },
  { id := 1, name := ("Forehead (Right Inferior)"), x := 0.55, y := 0.025, width := 0.08, height := 0.02 },
  { id := 1, name := ("Left Temple (Superior)"), x := 0.33, y := 0.03, width := 0.05, height := 0.02 },
  { id := 1, name := ("Left Temple (Inferior)"), x := 0.33, y := 0.05, width := 0.05, height := 0.02 },
  { id := 1, name := ("Right Temple (Superior)"), x := 0.62, y := 0.03, width := 0.05, height := 0.02 },
  { id := 1, name := ("Right Temple (Inferior)"), x := 0.62, y := 0.05, width := 0.05, height := 0.02 },
  { id := 1, name := ("Left Eyebrow"), x := 0.38, y := 0.045, width := 0.07, height := 0.01 },
  { id := 1, name := ("Right Eyebrow"), x := 0.55, y := 0.045, width := 0.07, height := 0.01 },
  { id := 1, name := ("Glabella (Between Eyebrows)"), x := 0.475, y := 0.05, width := 0.05, height := 0.01 },
  { id := 1, name := ("Left Upper Eyelid"), x := 0.39, y := 0.058, width := 0.06, height := 0.01 },
  { id := 1, name := ("Right Upper Eyelid"), x := 0.55, y := 0.058, width := 0.06, height := 0.01 },
  { id := 1, name := ("Left Lower Eyelid"), x := 0.39, y := 0.068, width := 0.06, height := 0.01 },
  { id := 1, name := ("Right Lower Eyelid"), x := 0.55, y := 0.068, width := 0.06, height := 0.01 },
  { id := 1, name := ("Nose (Bridge)"), x := 0.475, y := 0.07, width := 0.05, height := 0.015 },
  { id := 1, name := ("Nose (Dorsum)"), x := 0.475, y := 0.085, width := 0.05, height := 0.015 },
  { id := 1, name := ("Nose (Left Ala)"), x := 0.45, y := 0.095, width := 0.03, height := 0.02 },
  { id := 1, name := ("Nose (Right Ala)"), x := 0.52, y := 0.095, width := 0.03, height := 0.02 },
  { id := 1, name := ("Nose (Tip)"), x := 0.485, y := 0.105, width := 0.03, height := 0.01 },
  { id := 1, name := ("Left Cheek (Zygomatic Arch)"), x := 0.35, y := 0.075, width := 0.1, height := 0.02 },
  { id := 1, name := ("Right Cheek (Zygomatic Arch)"), x := 0.55, y := 0.075, width := 0.1, height := 0.02 },
  { id := 1, name := ("Left Cheek (Buccal Mid)"), x := 0.36, y := 0.095, width := 0.1, height := 0.025 },
  { id := 1, name := ("Right Cheek (Buccal Mid)"), x := 0.54, y := 0.095, width := 0.1, height := 0.025 },
  { id := 1, name := ("Philtrum (Above Upper Lip)"), x := 0.475, y := 0.11, width := 0.05, height := 0.01 },
  { id := 1, name := ("Upper Lip"), x := 0.455, y := 0.12, width := 0.09, height := 0.01 },
  { id := 1, name := ("Lower Lip"), x := 0.455, y := 0.13, width := 0.09, height := 0.01 },
  { id := 1, name := ("Chin (Mentum)"), x := 0.465, y := 0.14, width := 0.07, height := 0.015 },
  { id := 1, name := ("Left Mandible (Angle)"), x := 0.35, y := 0.125, width := 0.05, height := 0.03 },
  { id := 1, name := ("Right Mandible (Angle)"), x := 0.60, y := 0.125, width := 0.05, height := 0.03 },
  { id := 2, name := ("Submental Triangle (Under Chin)"), x := 0.46, y := 0.15, width := 0.08, height := 0.015 },
  { id := 2, name := ("Anterior Neck (Hyoid Area)"), x := 0.46, y := 0.165, width := 0.08, height := 0.015 }]

/-- Entries 35-68 of the `frontHotspots` catalog literal (the literal is split into chunks purely for elaboration speed; `frontHotspots` below is their concatenation in source order). -/
def frontHotspotsChunk1 : List Hotspot := [
  { id := 2, name := ("Anterior Neck (Thyroid Cartilage)"), x := 0.46, y := 0.18, width := 0.08, height := 0.015 },
  { id := 2, name := ("Anterior Neck (Left Carotid Triangle)"), x := 0.40, y := 0.16, width := 0.06, height := 0.03 },
  { id := 2, name := ("Anterior Neck (Right Carotid Triangle)"), x := 0.54, y := 0.16, width := 0.06, height := 0.03 },
  { id := 2, name := ("Suprasternal Notch"), x := 0.475, y := 0.195, width := 0.05, height := 0.01 },
  { id := 3, name := ("Left Sternoclavicular Joint"), x := 0.43, y := 0.195, width := 0.04, height := 0.02 },
  { id := 3, name := ("Left Clavicle (Mid)"), x := 0.35, y := 0.19, width := 0.07, height := 0.02 },
  { id := 3, name := ("Left Acromioclavicular Joint"), x := 0.28, y := 0.195, width := 0.05, height := 0.02 },
  { id := 4, name := ("Right Sternoclavicular Joint"), x := 0.53, y := 0.195, width := 0.04, height := 0.02 },
  { id := 4, name := ("Right Clavicle (Mid)"), x := 0.58, y := 0.19, width := 0.07, height := 0.02 },
  { id := 4, name := ("Right Acromioclavicular Joint"), x := 0.67, y := 0.195, width := 0.05, height := 0.02 },
  { id := 5, name := ("Manubrium"), x := 0.475, y := 0.21, width := 0.05, height := 0.03 },
  { id := 5, name := ("Sternal Body (Upper)"), x := 0.475, y := 0.24, width := 0.05, height := 0.04 },
  { id := 5, name := ("Sternal Body (Lower)"), x := 0.475, y := 0.28, width := 0.05, height := 0.04 },
  { id := 6, name := ("Left Pectoral (Superior Medial)"), x := 0.40, y := 0.22, width := 0.07, height := 0.04 },
  { id := 6, name := ("Left Pectoral (Superior Lateral)"), x := 0.29, y := 0.22, width := 0.11, height := 0.04 },
  { id := 6, name := ("Left Pectoral (Inferior Medial)"), x := 0.40, y := 0.26, width := 0.07, height := 0.04 },
  { id := 6, name := ("Left Pectoral (Inferior Lateral)"), x := 0.29, y := 0.26, width := 0.11, height := 0.04 },
  { id := 7, name := ("Right Pectoral (Superior Medial)"), x := 0.53, y := 0.22, width := 0.07, height := 0.04 },
  { id := 7, name := ("Right Pectoral (Superior Lateral)"), x := 0.60, y := 0.22, width := 0.11, height := 0.04 },
  { id := 7, name := ("Right Pectoral (Inferior Medial)"), x := 0.53, y := 0.26, width := 0.07, height := 0.04 },
  { id := 7, name := ("Right Pectoral (Inferior Lateral)"), x := 0.60, y := 0.26, width := 0.11, height := 0.04 },
  { id := 12, name := ("Epigastrium (Central)"), x := 0.46, y := 0.32, width := 0.08, height := 0.04 },
  { id := 13, name := ("Left Costal Margin (Upper Abdomen)"), x := 0.35, y := 0.32, width := 0.1, height := 0.05 },
  { id := 14, name := ("Right Costal Margin (Upper Abdomen)"), x := 0.55, y := 0.32, width := 0.1, height := 0.05 },
  { id := 15, name := ("Umbilicus"), x := 0.48, y := 0.38, width := 0.04, height := 0.03 },
  { id := 16, name := ("Left Flank (Mid Abdomen)"), x := 0.35, y := 0.37, width := 0.1, height := 0.06 },
  { id := 17, name := ("Right Flank (Mid Abdomen)"), x := 0.55, y := 0.37, width := 0.1, height := 0.06 },
  { id := 18, name := ("Left Lower Abdomen (Inguinal Ligament Area)"), x := 0.37, y := 0.44, width := 0.08, height := 0.04 },
  { id := 19, name := ("Right Lower Abdomen (Inguinal Ligament Area)"), x := 0.55, y := 0.44, width := 0.08, height := 0.04 },
  { id := 20, name := ("Pubic Symphysis Area"), x := 0.47, y := 0.49, width := 0.06, height := 0.03 },
  { id := 8, name := ("Left Shoulder (Deltoid - Anterior)"), x := 0.26, y := 0.20, width := 0.06, height := 0.05 },
  { id := 8, name := ("Left Biceps (Short Head)"), x := 0.25, y := 0.25, width := 0.05, height := 0.08 },
  { id := 8, name := ("Left Biceps (Long Head)"), x := 0.22, y := 0.27, width := 0.04, height := 0.08 },
  { id := 8, name := ("Left Elbow Crease (Medial)"), x := 0.22, y := 0.36, width := 0.03, height := 0.03 }]

/-- Entries 69-102 of the `frontHotspots` catalog literal (the literal is split into chunks purely for elaboration speed; `frontHotspots` below is their concatenation in source order). -/
def frontHotspotsChunk2 : List Hotspot := [
  { id := 8, name := ("Left Elbow Crease (Lateral)"), x := 0.18, y := 0.36, width := 0.03, height := 0.03 },
  { id := 9, name := ("Right Shoulder (Deltoid - Anterior)"), x := 0.68, y := 0.20, width := 0.06, height := 0.05 },
  { id := 9, name := ("Right Biceps (Short Head)"), x := 0.70, y := 0.25, width := 0.05, height := 0.08 },
  { id := 9, name := ("Right Biceps (Long Head)"), x := 0.74, y := 0.27, width := 0.04, height := 0.08 },
  { id := 9, name := ("Right Elbow Crease (Medial)"), x := 0.75, y := 0.36, width := 0.03, height := 0.03 },
  { id := 9, name := ("Right Elbow Crease (Lateral)"), x := 0.79, y := 0.36, width := 0.03, height := 0.03 },
  { id := 10, name := ("Left Forearm (Volar - Proximal Medial)"), x := 0.20, y := 0.40, width := 0.04, height := 0.06 },
  { id := 10, name := ("Left Forearm (Volar - Proximal Lateral)"), x := 0.16, y := 0.40, width := 0.04, height := 0.06 },
  { id := 10, name := ("Left Forearm (Volar - Distal Medial)"), x := 0.19, y := 0.46, width := 0.04, height := 0.06 },
  { id := 10, name := ("Left Forearm (Volar - Distal Lateral)"), x := 0.15, y := 0.46, width := 0.04, height := 0.06 },
  { id := 10, name := ("Left Wrist (Palmar Crease)"), x := 0.17, y := 0.52, width := 0.05, height := 0.02 },
  { id := 10, name := ("Left Palm (Base of Thumb)"), x := 0.15, y := 0.54, width := 0.03, height := 0.03 },
  { id := 10, name := ("Left Palm (Base of Pinky)"), x := 0.19, y := 0.55, width := 0.02, height := 0.03 },
  { id := 10, name := ("Left Palm (Center)"), x := 0.17, y := 0.56, width := 0.03, height := 0.03 },
  { id := 10, name := ("Left Thumb (Volar)"), x := 0.13, y := 0.58, width := 0.02, height := 0.05 },
  { id := 10, name := ("Left Index Finger (Volar)"), x := 0.14, y := 0.61, width := 0.02, height := 0.05 },
  { id := 10, name := ("Left Middle Finger (Volar)"), x := 0.16, y := 0.62, width := 0.02, height := 0.05 },
  { id := 10, name := ("Left Ring Finger (Volar)"), x := 0.18, y := 0.61, width := 0.02, height := 0.05 },
  { id := 10, name := ("Left Pinky Finger (Volar)"), x := 0.20, y := 0.60, width := 0.02, height := 0.05 },
  { id := 11, name := ("Right Forearm (Volar - Proximal Medial)"), x := 0.76, y := 0.40, width := 0.04, height := 0.06 },
  { id := 11, name := ("Right Forearm (Volar - Proximal Lateral)"), x := 0.80, y := 0.40, width := 0.04, height := 0.06 },
  { id := 11, name := ("Right Forearm (Volar - Distal Medial)"), x := 0.77, y := 0.46, width := 0.04, height := 0.06 },
  { id := 11, name := ("Right Forearm (Volar - Distal Lateral)"), x := 0.81, y := 0.46, width := 0.04, height := 0.06 },
  { id := 11, name := ("Right Wrist (Palmar Crease)"), x := 0.78, y := 0.52, width := 0.05, height := 0.02 },
  { id := 11, name := ("Right Palm (Base of Thumb)"), x := 0.82, y := 0.54, width := 0.03, height := 0.03 },
  { id := 11, name := ("Right Palm (Base of Pinky)"), x := 0.78, y := 0.55, width := 0.02, height := 0.03 },
  { id := 11, name := ("Right Palm (Center)"), x := 0.80, y := 0.56, width := 0.03, height := 0.03 },
  { id := 11, name := ("Right Thumb (Volar)"), x := 0.85, y := 0.58, width := 0.02, height := 0.05 },
  { id := 11, name := ("Right Index Finger (Volar)"), x := 0.84, y := 0.61, width := 0.02, height := 0.05 },
  { id := 11, name := ("Right Middle Finger (Volar)"), x := 0.82, y := 0.62, width := 0.02, height := 0.05 },
  { id := 11, name := ("Right Ring Finger (Volar)"), x := 0.80, y := 0.61, width := 0.02, height := 0.05 },
  { id := 11, name := ("Right Pinky Finger (Volar)"), x := 0.78, y := 0.60, width := 0.02, height := 0.05 },
  { id := 21, name := ("Left Hip (Greater Trochanter Area - Anterior)"), x := 0.28, y := 0.49, width := 0.06, height := 0.06 },
  { id := 21, name := ("Left Thigh (Anterior Superior)"), x := 0.33, y := 0.54, width := 0.1, height := 0.07 }]

/-- Entries 103-134 of the `frontHotspots` catalog literal (the literal is split into chunks purely for elaboration speed; `frontHotspots` below is their concatenation in source order). -/
def frontHotspotsChunk3 : List Hotspot := [
  { id := 21, name := ("Left Thigh (Anterior Medial)"), x := 0.38, y := 0.60, width := 0.06, height := 0.1 },
  { id := 21, name := ("Left Thigh (Anterior Lateral)"), x := 0.29, y := 0.60, width := 0.06, height := 0.1 },
  { id := 21, name := ("Left Knee (Suprapatellar)"), x := 0.34, y := 0.69, width := 0.09, height := 0.03 },
  { id := 21, name := ("Left Patella"), x := 0.345, y := 0.72, width := 0.08, height := 0.04 },
  { id := 21, name := ("Left Knee (Infrapatellar Medial)"), x := 0.38, y := 0.76, width := 0.04, height := 0.03 },
  { id := 21, name := ("Left Knee (Infrapatellar Lateral)"), x := 0.31, y := 0.76, width := 0.04, height := 0.03 },
  { id := 22, name := ("Right Hip (Greater Trochanter Area - Anterior)"), x := 0.66, y := 0.49, width := 0.06, height := 0.06 },
  { id := 22, name := ("Right Thigh (Anterior Superior)"), x := 0.57, y := 0.54, width := 0.1, height := 0.07 },
  { id := 22, name := ("Right Thigh (Anterior Medial)"), x := 0.56, y := 0.60, width := 0.06, height := 0.1 },
  { id := 22, name := ("Right Thigh (Anterior Lateral)"), x := 0.65, y := 0.60, width := 0.06, height := 0.1 },
  { id := 22, name := ("Right Knee (Suprapatellar)"), x := 0.57, y := 0.69, width := 0.09, height := 0.03 },
  { id := 22, name := ("Right Patella"), x := 0.575, y := 0.72, width := 0.08, height := 0.04 },
  { id := 22, name := ("Right Knee (Infrapatellar Medial)"), x := 0.58, y := 0.76, width := 0.04, height := 0.03 },
  { id := 22, name := ("Right Knee (Infrapatellar Lateral)"), x := 0.65, y := 0.76, width := 0.04, height := 0.03 },
  { id := 23, name := ("Left Shin (Tibial Tuberosity)"), x := 0.35, y := 0.79, width := 0.07, height := 0.03 },
  { id := 23, name := ("Left Shin (Anteromedial)"), x := 0.37, y := 0.82, width := 0.06, height := 0.08 },
  { id := 23, name := ("Left Shin (Anterolateral)"), x := 0.30, y := 0.82, width := 0.06, height := 0.08 },
  { id := 23, name := ("Left Ankle (Medial Malleolus - Anterior)"), x := 0.38, y := 0.90, width := 0.03, height := 0.03 },
  { id := 23, name := ("Left Ankle (Lateral Malleolus - Anterior)"), x := 0.30, y := 0.90, width := 0.03, height := 0.03 },
  { id := 23, name := ("Left Foot (Dorsum - Navicular/Cuneiforms)"), x := 0.35, y := 0.925, width := 0.06, height := 0.02 },
  { id := 23, name := ("Left Foot (Dorsum - Cuboid/Metatarsals)"), x := 0.30, y := 0.93, width := 0.05, height := 0.02 },
  { id := 23, name := ("Left Hallux (Big Toe - Dorsal)"), x := 0.37, y := 0.95, width := 0.03, height := 0.03 },
  { id := 23, name := ("Left Toes 2-5 (Dorsal)"), x := 0.31, y := 0.955, width := 0.05, height := 0.03 },
  { id := 24, name := ("Right Shin (Tibial Tuberosity)"), x := 0.58, y := 0.79, width := 0.07, height := 0.03 },
  { id := 24, name := ("Right Shin (Anteromedial)"), x := 0.57, y := 0.82, width := 0.06, height := 0.08 },
  { id := 24, name := ("Right Shin (Anterolateral)"), x := 0.64, y := 0.82, width := 0.06, height := 0.08 },
  { id := 24, name := ("Right Ankle (Medial Malleolus - Anterior)"), x := 0.59, y := 0.90, width := 0.03, height := 0.03 },
  { id := 24, name := ("Right Ankle (Lateral Malleolus - Anterior)"), x := 0.67, y := 0.90, width := 0.03, height := 0.03 },
  { id := 24, name := ("Right Foot (Dorsum - Navicular/Cuneiforms)"), x := 0.59, y := 0.925, width := 0.06, height := 0.02 },
  { id := 24, name := ("Right Foot (Dorsum - Cuboid/Metatarsals)"), x := 0.65, y := 0.93, width := 0.05, height := 0.02 },
  { id := 24, name := ("Right Hallux (Big Toe - Dorsal)"), x := 0.60, y := 0.95, width := 0.03, height := 0.03 },
  { id := 24, name := ("Right Toes 2-5 (Dorsal)"), x := 0.64, y := 0.955, width := 0.05, height := 0.03 }]

/-- The `frontHotspots` catalog of PainMappingStep.tsx, in definition order. -/
def frontHotspots : List Hotspot := frontHotspotsChunk0 ++ frontHotspotsChunk1 ++ frontHotspotsChunk2 ++ frontHotspotsChunk3

/-- Entries 1-34 of the `backHotspots` catalog literal (the literal is split into chunks purely for elaboration speed; `backHotspots` below is their concatenation in source order). -/
def backHotspotsChunk0 : List Hotspot := [
  { id := 25, name := ("Vertex (Top of Head - Posterior)"), x := 0.45, y := 0.005, width := 0.1, height := 0.02 },
  { id := 25, name := ("Occiput (Superior Nuchal Line - Left)"), x := 0.40, y := 0.025, width := 0.07, height := 0.03 },
  { id := 25, name := ("Occiput (Superior Nuchal Line - Right)"), x := 0.53, y := 0.025, width := 0.07, height := 0.03 },
  { id := 25, name := ("Occiput (Inion/External Occipital Protuberance)"), x := 0.475, y := 0.05, width := 0.05, height := 0.02 },
  { id := 25, name := ("Posterior Neck (Suboccipital - Left)"), x := 0.42, y := 0.07, width := 0.06, height := 0.03 },
  { id := 25, name := ("Posterior Neck (Suboccipital - Right)"), x := 0.52, y := 0.07, width := 0.06, height := 0.03 },
  { id := 25, name := ("Cervical Spine (C2-C4 Spinous Processes)"), x := 0.475, y := 0.10, width := 0.05, height := 0.03 },
  { id := 25, name := ("Cervical Spine (C5-C7 Spinous Processes)"), x := 0.475, y := 0.13, width := 0.05, height := 0.03 },
  { id := 25, name := ("Posterior Neck (Lateral - Left)"), x := 0.39, y := 0.10, width := 0.06, height := 0.05 },
  { id := 25, name := ("Posterior Neck (Lateral - Right)"), x := 0.55, y := 0.10, width := 0.06, height := 0.05 },
  { id := 26, name := ("Left Acromion (Posterior)"), x := 0.28, y := 0.16, width := 0.05, height := 0.03 },
  { id := 26, name := ("Left Supraspinatus Area"), x := 0.33, y := 0.17, width := 0.08, height := 0.04 },
  { id := 26, name := ("Left Scapular Spine"), x := 0.30, y := 0.21, width := 0.12, height := 0.02 },
  { id := 26, name := ("Left Infraspinatus Area"), x := 0.32, y := 0.23, width := 0.1, height := 0.06 },
  { id := 26, name := ("Left Teres Major/Minor Area"), x := 0.28, y := 0.25, width := 0.07, height := 0.05 },
  { id := 27, name := ("Right Acromion (Posterior)"), x := 0.67, y := 0.16, width := 0.05, height := 0.03 },
  { id := 27, name := ("Right Supraspinatus Area"), x := 0.59, y := 0.17, width := 0.08, height := 0.04 },
  { id := 27, name := ("Right Scapular Spine"), x := 0.58, y := 0.21, width := 0.12, height := 0.02 },
  { id := 27, name := ("Right Infraspinatus Area"), x := 0.58, y := 0.23, width := 0.1, height := 0.06 },
  { id := 27, name := ("Right Teres Major/Minor Area"), x := 0.65, y := 0.25, width := 0.07, height := 0.05 },
  { id := 28, name := ("Left Deltoid (Posterior Head)"), x := 0.28, y := 0.19, width := 0.06, height := 0.06 },
  { id := 28, name := ("Left Triceps (Lateral Head)"), x := 0.25, y := 0.25, width := 0.05, height := 0.09 },
  { id := 28, name := ("Left Triceps (Long Head)"), x := 0.29, y := 0.26, width := 0.05, height := 0.09 },
  { id := 29, name := ("Right Deltoid (Posterior Head)"), x := 0.66, y := 0.19, width := 0.06, height := 0.06 },
  { id := 29, name := ("Right Triceps (Lateral Head)"), x := 0.70, y := 0.25, width := 0.05, height := 0.09 },
  { id := 29, name := ("Right Triceps (Long Head)"), x := 0.66, y := 0.26, width := 0.05, height := 0.09 },
  { id := 30, name := ("Left Olecranon (Elbow Tip)"), x := 0.24, y := 0.35, width := 0.04, height := 0.03 },
  { id := 30, name := ("Left Forearm (Dorsal - Proximal Ulnar)"), x := 0.23, y := 0.38, width := 0.04, height := 0.06 },
  { id := 30, name := ("Left Forearm (Dorsal - Proximal Radial)"), x := 0.19, y := 0.39, width := 0.04, height := 0.06 },
  { id := 30, name := ("Left Forearm (Dorsal - Distal Ulnar)"), x := 0.22, y := 0.44, width := 0.04, height := 0.07 },
  { id := 30, name := ("Left Forearm (Dorsal - Distal Radial)"), x := 0.18, y := 0.45, width := 0.04, height := 0.07 },
  { id := 31, name := ("Right Olecranon (Elbow Tip)"), x := 0.72, y := 0.35, width := 0.04, height := 0.03 },
  { id := 31, name := ("Right Forearm (Dorsal - Proximal Ulnar)"), x := 0.73, y := 0.38, width := 0.04, height := 0.06 },
  { id := 31, name := ("Right Forearm (Dorsal - Proximal Radial)"), x := 0.77, y := 0.39, width := 0.04, height := 0.06 }]

/-- Entries 35-68 of the `backHotspots` catalog literal (the literal is split into chunks purely for elaboration speed; `backHotspots` below is their concatenation in source order). -/
def backHotspotsChunk1 : List Hotspot := [
  { id := 31, name := ("Right Forearm (Dorsal - Distal Ulnar)"), x := 0.74, y := 0.44, width := 0.04, height := 0.07 },
  { id := 31, name := ("Right Forearm (Dorsal - Distal Radial)"), x := 0.78, y := 0.45, width := 0.04, height := 0.07 },
  { id := 32, name := ("Left Wrist (Dorsum)"), x := 0.20, y := 0.51, width := 0.05, height := 0.03 },
  { id := 32, name := ("Left Hand (Dorsum - Metacarpals)"), x := 0.18, y := 0.54, width := 0.06, height := 0.05 },
  { id := 32, name := ("Left Thumb (Dorsal)"), x := 0.15, y := 0.57, width := 0.02, height := 0.04 },
  { id := 32, name := ("Left Fingers 2-5 (Dorsal)"), x := 0.17, y := 0.59, width := 0.05, height := 0.05 },
  { id := 33, name := ("Right Wrist (Dorsum)"), x := 0.75, y := 0.51, width := 0.05, height := 0.03 },
  { id := 33, name := ("Right Hand (Dorsum - Metacarpals)"), x := 0.76, y := 0.54, width := 0.06, height := 0.05 },
  { id := 33, name := ("Right Thumb (Dorsal)"), x := 0.83, y := 0.57, width := 0.02, height := 0.04 },
  { id := 33, name := ("Right Fingers 2-5 (Dorsal)"), x := 0.78, y := 0.59, width := 0.05, height := 0.05 },
  { id := 34, name := ("Thoracic Spine (T1-T2 - Left Paraspinal)"), x := 0.475, y := 0.16, width := 0.025, height := 0.04 },
  { id := 34, name := ("Thoracic Spine (T3-T5 - Left Paraspinal)"), x := 0.475, y := 0.20, width := 0.025, height := 0.05 },
  { id := 34, name := ("Thoracic Spine (T6-T9 - Left Paraspinal)"), x := 0.475, y := 0.25, width := 0.025, height := 0.07 },
  { id := 34, name := ("Thoracic Spine (T10-T12 - Left Paraspinal)"), x := 0.475, y := 0.32, width := 0.025, height := 0.06 },
  { id := 34, name := ("Left Upper Trapezius"), x := 0.38, y := 0.16, width := 0.08, height := 0.06 },
  { id := 34, name := ("Left Mid Trapezius/Rhomboids"), x := 0.40, y := 0.22, width := 0.07, height := 0.08 },
  { id := 34, name := ("Left Upper Trapezius (Superior Medial)"), x := 0.42, y := 0.15, width := 0.04, height := 0.03 },
  { id := 34, name := ("Left Upper Trapezius (Superior Lateral)"), x := 0.37, y := 0.15, width := 0.04, height := 0.03 },
  { id := 34, name := ("Left Upper Trapezius (Inferior Medial)"), x := 0.42, y := 0.19, width := 0.04, height := 0.03 },
  { id := 34, name := ("Left Upper Trapezius (Inferior Lateral)"), x := 0.37, y := 0.19, width := 0.04, height := 0.03 },
  { id := 34, name := ("Left Mid Traps (Superior Medial)"), x := 0.43, y := 0.21, width := 0.035, height := 0.04 },
  { id := 34, name := ("Left Mid Traps (Superior Lateral)"), x := 0.39, y := 0.21, width := 0.035, height := 0.04 },
  { id := 34, name := ("Left Mid Traps (Inferior Medial)"), x := 0.43, y := 0.26, width := 0.035, height := 0.04 },
  { id := 34, name := ("Left Mid Traps (Inferior Lateral)"), x := 0.39, y := 0.26, width := 0.035, height := 0.04 },
  { id := 35, name := ("Thoracic Spine (T1-T2 - Right Paraspinal)"), x := 0.50, y := 0.16, width := 0.025, height := 0.04 },
  { id := 35, name := ("Thoracic Spine (T3-T5 - Right Paraspinal)"), x := 0.50, y := 0.20, width := 0.025, height := 0.05 },
  { id := 35, name := ("Thoracic Spine (T6-T9 - Right Paraspinal)"), x := 0.50, y := 0.25, width := 0.025, height := 0.07 },
  { id := 35, name := ("Thoracic Spine (T10-T12 - Right Paraspinal)"), x := 0.50, y := 0.32, width := 0.025, height := 0.06 },
  { id := 35, name := ("Right Upper Trapezius"), x := 0.54, y := 0.16, width := 0.08, height := 0.06 },
  { id := 35, name := ("Right Mid Trapezius/Rhomboids"), x := 0.53, y := 0.22, width := 0.07, height := 0.08 },
  { id := 35, name := ("Right Upper Trapezius (Superior Medial)"), x := 0.55, y := 0.15, width := 0.04, height := 0.03 },
  { id := 35, name := ("Right Upper Trapezius (Superior Lateral)"), x := 0.60, y := 0.15, width := 0.04, height := 0.03 },
  { id := 35, name := ("Right Upper Trapezius (Inferior Medial)"), x := 0.55, y := 0.19, width := 0.04, height := 0.03 },
  { id := 35, name := ("Right Upper Trapezius (Inferior Lateral)"), x := 0.60, y := 0.19, width := 0.04, height := 0.03 }]

/-- Entries 69-102 of the `backHotspots` catalog literal (the literal is split into chunks purely for elaboration speed; `backHotspots` below is their concatenation in source order). -/
def backHotspotsChunk2 : List Hotspot := [
  { id := 35, name := ("Right Mid Traps (Superior Medial)"), x := 0.53, y := 0.21, width := 0.035, height := 0.04 },
  { id := 35, name := ("Right Mid Traps (Superior Lateral)"), x := 0.57, y := 0.21, width := 0.035, height := 0.04 },
  { id := 35, name := ("Right Mid Traps (Inferior Medial)"), x := 0.53, y := 0.26, width := 0.035, height := 0.04 },
  { id := 35, name := ("Right Mid Traps (Inferior Lateral)"), x := 0.57, y := 0.26, width := 0.035, height := 0.04 },
  { id := 36, name := ("Left Latissimus Dorsi (Upper Back)"), x := 0.33, y := 0.28, width := 0.12, height := 0.1 },
  { id := 36, name := ("Left Lower Back (Flank - Thoracolumbar)"), x := 0.35, y := 0.38, width := 0.1, height := 0.06 },
  { id := 37, name := ("Right Latissimus Dorsi (Upper Back)"), x := 0.55, y := 0.28, width := 0.12, height := 0.1 },
  { id := 37, name := ("Right Lower Back (Flank - Thoracolumbar)"), x := 0.55, y := 0.38, width := 0.1, height := 0.06 },
  { id := 38, name := ("Lumbar Spine (L1-L3 - Left Paraspinal)"), x := 0.475, y := 0.39, width := 0.025, height := 0.05 },
  { id := 38, name := ("Lumbar Spine (L4-L5 - Left Paraspinal)"), x := 0.475, y := 0.44, width := 0.025, height := 0.04 },
  { id := 38, name := ("Left Lumbar Erector Spinae"), x := 0.41, y := 0.39, width := 0.06, height := 0.09 },
  { id := 38, name := ("L Gluteal (Superior)"), x := 0.35, y := 0.48, width := 0.1, height := 0.05 },
  { id := 38, name := ("L Gluteal (Mid-Lateral)"), x := 0.29, y := 0.51, width := 0.07, height := 0.07 },
  { id := 38, name := ("L Gluteal (Mid-Medial)"), x := 0.36, y := 0.53, width := 0.08, height := 0.06 },
  { id := 38, name := ("L Ischial Tuberosity Area"), x := 0.38, y := 0.58, width := 0.06, height := 0.03 },
  { id := 38, name := ("L UpperOuterLumbar S1"), x := 0.39, y := 0.37, width := 0.01, height := 0.01 },
  { id := 38, name := ("L UpperOuterLumbar S2"), x := 0.40, y := 0.37, width := 0.01, height := 0.01 },
  { id := 38, name := ("L UpperOuterLumbar S3"), x := 0.41, y := 0.37, width := 0.01, height := 0.01 },
  { id := 38, name := ("L UpperOuterLumbar S4"), x := 0.42, y := 0.37, width := 0.01, height := 0.01 },
  { id := 38, name := ("L UpperOuterLumbar S5"), x := 0.39, y := 0.38, width := 0.01, height := 0.01 },
  { id := 38, name := ("L UpperOuterLumbar S6"), x := 0.40, y := 0.38, width := 0.01, height := 0.01 },
  { id := 38, name := ("L UpperOuterLumbar S7"), x := 0.41, y := 0.38, width := 0.01, height := 0.01 },
  { id := 38, name := ("L UpperOuterLumbar S8"), x := 0.42, y := 0.38, width := 0.01, height := 0.01 },
  { id := 38, name := ("L UpperOuterLumbar S9"), x := 0.39, y := 0.39, width := 0.01, height := 0.01 },
  { id := 38, name := ("L UpperOuterLumbar S10"), x := 0.40, y := 0.39, width := 0.01, height := 0.01 },
  { id := 38, name := ("L UpperOuterLumbar S11"), x := 0.41, y := 0.39, width := 0.01, height := 0.01 },
  { id := 38, name := ("L UpperOuterLumbar S12"), x := 0.42, y := 0.39, width := 0.01, height := 0.01 },
  { id := 38, name := ("L UpperOuterLumbar S13"), x := 0.39, y := 0.40, width := 0.01, height := 0.01 },
  { id := 38, name := ("L UpperOuterLumbar S14"), x := 0.40, y := 0.40, width := 0.01, height := 0.01 },
  { id := 38, name := ("L UpperOuterLumbar S15"), x := 0.41, y := 0.40, width := 0.01, height := 0.01 },
  { id := 38, name := ("L UpperOuterLumbar S16"), x := 0.42, y := 0.40, width := 0.01, height := 0.01 },
  { id := 38, name := ("L UpperOuterLumbar S17"), x := 0.43, y := 0.385, width := 0.01, height := 0.01 },
  { id := 38, name := ("L UpperOuterLumbar S18"), x := 0.43, y := 0.395, width := 0.01, height := 0.01 },
  { id := 38, name := ("L UpperOuterLumbar S19"), x := 0.385, y := 0.38, width := 0.01, height := 0.01 }]

/-- Entries 103-136 of the `backHotspots` catalog literal (the literal is split into chunks purely for elaboration speed; `backHotspots` below is their concatenation in source order). -/
def backHotspotsChunk3 : List Hotspot := [
  { id := 38, name := ("L UpperOuterLumbar S20"), x := 0.385, y := 0.39, width := 0.01, height := 0.01 },
  { id := 38, name := ("L Lumbar TopOuter A1"), x := 0.39, y := 0.375, width := 0.01, height := 0.01 },
  { id := 38, name := ("L Lumbar TopOuter A2"), x := 0.40, y := 0.375, width := 0.01, height := 0.01 },
  { id := 38, name := ("L Lumbar TopOuter A3"), x := 0.39, y := 0.385, width := 0.01, height := 0.01 },
  { id := 38, name := ("L Lumbar TopOuter A4"), x := 0.40, y := 0.385, width := 0.01, height := 0.01 },
  { id := 38, name := ("L Lumbar TopOuter B1"), x := 0.38, y := 0.39, width := 0.01, height := 0.01 },
  { id := 38, name := ("L Lumbar TopOuter B2"), x := 0.39, y := 0.39, width := 0.01, height := 0.01 },
  { id := 38, name := ("L Lumbar TopOuter B3"), x := 0.38, y := 0.40, width := 0.01, height := 0.01 },
  { id := 38, name := ("L Lumbar TopOuter B4"), x := 0.39, y := 0.40, width := 0.01, height := 0.01 },
  { id := 38, name := ("L Lumbar UpperLat C1"), x := 0.395, y := 0.405, width := 0.01, height := 0.01 },
  { id := 38, name := ("L Lumbar UpperLat C2"), x := 0.405, y := 0.405, width := 0.01, height := 0.01 },
  { id := 38, name := ("L Lumbar UpperLat C3"), x := 0.395, y := 0.415, width := 0.01, height := 0.01 },
  { id := 38, name := ("L Lumbar UpperLat C4"), x := 0.405, y := 0.415, width := 0.01, height := 0.01 },
  { id := 38, name := ("L Lumbar ES (SupLat 1)"), x := 0.40, y := 0.38, width := 0.015, height := 0.015 },
  { id := 38, name := ("L Lumbar ES (SupLat 2)"), x := 0.415, y := 0.38, width := 0.015, height := 0.015 },
  { id := 38, name := ("L Lumbar ES (SupLat 3)"), x := 0.40, y := 0.395, width := 0.015, height := 0.015 },
  { id := 38, name := ("L Lumbar ES (SupMid 1)"), x := 0.43, y := 0.38, width := 0.015, height := 0.015 },
  { id := 38, name := ("L Lumbar ES (SupMid 2)"), x := 0.445, y := 0.38, width := 0.015, height := 0.015 },
  { id := 38, name := ("L Lumbar ES (SupMid 3)"), x := 0.43, y := 0.395, width := 0.015, height := 0.015 },
  { id := 38, name := ("L Lumbar ES (MidLat 1)"), x := 0.40, y := 0.41, width := 0.015, height := 0.015 },
  { id := 38, name := ("L Lumbar ES (MidLat 2)"), x := 0.415, y := 0.41, width := 0.015, height := 0.015 },
  { id := 38, name := ("L Lumbar ES (MidLat 3)"), x := 0.40, y := 0.425, width := 0.015, height := 0.015 },
  { id := 38, name := ("L Lumbar Para (Sup 1)"), x := 0.45, y := 0.38, width := 0.012, height := 0.01 },
  { id := 38, name := ("L Lumbar Para (Sup 2)"), x := 0.462, y := 0.38, width := 0.013, height := 0.01 },
  { id := 38, name := ("L Lumbar Para (Sup 3)"), x := 0.45, y := 0.39, width := 0.012, height := 0.01 },
  { id := 38, name := ("L Lumbar Para (Mid 1)"), x := 0.45, y := 0.40, width := 0.012, height := 0.01 },
  { id := 38, name := ("L Lumbar Para (Mid 2)"), x := 0.462, y := 0.40, width := 0.013, height := 0.01 },
  { id := 38, name := ("L Lumbar Para (Mid 3)"), x := 0.45, y := 0.41, width := 0.012, height := 0.01 },
  { id := 38, name := ("L Lumbar (TL 1a)"), x := 0.40, y := 0.37, width := 0.01, height := 0.01 },
  { id := 38, name := ("L Lumbar (TL 1b)"), x := 0.41, y := 0.37, width := 0.01, height := 0.01 },
  { id := 38, name := ("L Lumbar (TL 2a)"), x := 0.42, y := 0.37, width := 0.01, height := 0.01 },
  { id := 38, name := ("L Lumbar (TL 2b)"), x := 0.43, y := 0.37, width := 0.01, height := 0.01 },
  { id := 38, name := ("L Lumbar (TL 3a)"), x := 0.40, y := 0.38, width := 0.01, height := 0.01 },
  { id := 38, name := ("L Lumbar (TL 3b)"), x := 0.41, y := 0.38, width := 0.01, height := 0.01 }]

/-- Entries 137-170 of the `backHotspots` catalog literal (the literal is split into chunks purely for elaboration speed; `backHotspots` below is their concatenation in source order). -/
def backHotspotsChunk4 : List Hotspot := [
  { id := 38, name := ("L Lumbar (TC 1a)"), x := 0.44, y := 0.37, width := 0.01, height := 0.01 },
  { id := 38, name := ("L Lumbar (TC 1b)"), x := 0.45, y := 0.37, width := 0.01, height := 0.01 },
  { id := 38, name := ("L Lumbar (TC 2a)"), x := 0.46, y := 0.37, width := 0.01, height := 0.01 },
  { id := 38, name := ("L Lumbar (TC 2b)"), x := 0.47, y := 0.37, width := 0.01, height := 0.01 },
  { id := 38, name := ("L Glute SupLat (A1)"), x := 0.30, y := 0.47, width := 0.02, height := 0.015 },
  { id := 38, name := ("L Glute SupLat (A2)"), x := 0.32, y := 0.47, width := 0.02, height := 0.015 },
  { id := 38, name := ("L Glute SupLat (B1)"), x := 0.33, y := 0.475, width := 0.02, height := 0.015 },
  { id := 38, name := ("L Glute SupLat (B2)"), x := 0.35, y := 0.475, width := 0.02, height := 0.015 },
  { id := 38, name := ("L Glute SupMidLat (1)"), x := 0.29, y := 0.49, width := 0.025, height := 0.015 },
  { id := 38, name := ("L Glute SupMidLat (2)"), x := 0.315, y := 0.49, width := 0.025, height := 0.015 },
  { id := 38, name := ("L Glute UpOut (1)"), x := 0.28, y := 0.48, width := 0.02, height := 0.015 },
  { id := 38, name := ("L Glute UpOut (2)"), x := 0.30, y := 0.48, width := 0.02, height := 0.015 },
  { id := 38, name := ("L Glute TL (1a)"), x := 0.28, y := 0.47, width := 0.01, height := 0.01 },
  { id := 38, name := ("L Glute TL (1b)"), x := 0.29, y := 0.47, width := 0.01, height := 0.01 },
  { id := 38, name := ("L Glute TL (2a)"), x := 0.30, y := 0.46, width := 0.01, height := 0.01 },
  { id := 38, name := ("L Glute TL (2b)"), x := 0.31, y := 0.46, width := 0.01, height := 0.01 },
  { id := 38, name := ("L Glute TL (3a)"), x := 0.32, y := 0.47, width := 0.01, height := 0.01 },
  { id := 38, name := ("L Glute TL (3b)"), x := 0.33, y := 0.47, width := 0.01, height := 0.01 },
  { id := 38, name := ("L Glute TL (4a)"), x := 0.34, y := 0.46, width := 0.01, height := 0.01 },
  { id := 38, name := ("L Glute TL (4b)"), x := 0.35, y := 0.46, width := 0.01, height := 0.01 },
  { id := 38, name := ("L Glute TL (5a)"), x := 0.31, y := 0.485, width := 0.01, height := 0.01 },
  { id := 38, name := ("L Glute TL (5b)"), x := 0.32, y := 0.485, width := 0.01, height := 0.01 },
  { id := 38, name := ("L Glute TL (6a)"), x := 0.33, y := 0.495, width := 0.01, height := 0.01 },
  { id := 38, name := ("L Glute TL (6b)"), x := 0.34, y := 0.495, width := 0.01, height := 0.01 },
  { id := 38, name := ("L Glute (Superior Medial 1)"), x := 0.36, y := 0.48, width := 0.02, height := 0.015 },
  { id := 38, name := ("L Glute (Superior Medial 2)"), x := 0.38, y := 0.48, width := 0.02, height := 0.015 },
  { id := 38, name := ("L Glute (Superior Medial 3)"), x := 0.37, y := 0.49, width := 0.02, height := 0.015 },
  { id := 38, name := ("L UpperLateralThigh S1"), x := 0.28, y := 0.50, width := 0.01, height := 0.02 },
  { id := 38, name := ("L UpperLateralThigh S2"), x := 0.29, y := 0.50, width := 0.01, height := 0.02 },
  { id := 38, name := ("L UpperLateralThigh S3"), x := 0.30, y := 0.50, width := 0.01, height := 0.02 },
  { id := 38, name := ("L UpperLateralThigh S4"), x := 0.28, y := 0.52, width := 0.01, height := 0.02 },
  { id := 38, name := ("L UpperLateralThigh S5"), x := 0.29, y := 0.52, width := 0.01, height := 0.02 },
  { id := 38, name := ("L UpperLateralThigh S6"), x := 0.30, y := 0.52, width := 0.01, height := 0.02 },
  { id := 38, name := ("L UpperLateralThigh S7"), x := 0.28, y := 0.54, width := 0.01, height := 0.02 }]

/-- Entries 171-204 of the `backHotspots` catalog literal (the literal is split into chunks purely for elaboration speed; `backHotspots` below is their concatenation in source order). -/
def backHotspotsChunk5 : List Hotspot := [
  { id := 38, name := ("L UpperLateralThigh S8"), x := 0.29, y := 0.54, width := 0.01, height := 0.02 },
  { id := 38, name := ("L UpperLateralThigh S9"), x := 0.30, y := 0.54, width := 0.01, height := 0.02 },
  { id := 38, name := ("L UpperLateralThigh S10"), x := 0.28, y := 0.56, width := 0.01, height := 0.02 },
  { id := 38, name := ("L UpperLateralThigh S11"), x := 0.29, y := 0.56, width := 0.01, height := 0.02 },
  { id := 38, name := ("L UpperLateralThigh S12"), x := 0.30, y := 0.56, width := 0.01, height := 0.02 },
  { id := 38, name := ("L UpperLateralThigh S13"), x := 0.28, y := 0.58, width := 0.01, height := 0.02 },
  { id := 38, name := ("L UpperLateralThigh S14"), x := 0.29, y := 0.58, width := 0.01, height := 0.02 },
  { id := 38, name := ("L UpperLateralThigh S15"), x := 0.30, y := 0.58, width := 0.01, height := 0.02 },
  { id := 38, name := ("Left Posterior Superior Iliac Spine (PSIS)"), x := 0.42, y := 0.47, width := 0.04, height := 0.03 },
  { id := 38, name := ("L Sacrum TopOuter A1"), x := 0.40, y := 0.455, width := 0.01, height := 0.01 },
  { id := 38, name := ("L Sacrum TopOuter A2"), x := 0.41, y := 0.455, width := 0.01, height := 0.01 },
  { id := 38, name := ("L Sacrum TopOuter A3"), x := 0.40, y := 0.465, width := 0.01, height := 0.01 },
  { id := 38, name := ("L Sacrum TopOuter A4"), x := 0.41, y := 0.465, width := 0.01, height := 0.01 },
  { id := 38, name := ("L Sacrum UpperLat B1"), x := 0.415, y := 0.47, width := 0.01, height := 0.01 },
  { id := 38, name := ("L Sacrum UpperLat B2"), x := 0.425, y := 0.47, width := 0.01, height := 0.01 },
  { id := 38, name := ("L Sacrum UpperLat B3"), x := 0.415, y := 0.48, width := 0.01, height := 0.01 },
  { id := 38, name := ("L Sacrum UpperLat B4"), x := 0.425, y := 0.48, width := 0.01, height := 0.01 },
  { id := 38, name := ("L PSIS (Sup 1)"), x := 0.42, y := 0.46, width := 0.02, height := 0.01 },
  { id := 38, name := ("L PSIS (Sup 2)"), x := 0.44, y := 0.46, width := 0.02, height := 0.01 },
  { id := 38, name := ("L PSIS (Lat 1)"), x := 0.40, y := 0.47, width := 0.01, height := 0.015 },
  { id := 38, name := ("L PSIS (Lat 2)"), x := 0.41, y := 0.47, width := 0.01, height := 0.015 },
  { id := 38, name := ("L SI Area (Sup 1)"), x := 0.44, y := 0.465, width := 0.015, height := 0.012 },
  { id := 38, name := ("L SI Area (Sup 2)"), x := 0.455, y := 0.465, width := 0.015, height := 0.013 },
  { id := 38, name := ("L Sacral Ala (Sup 1)"), x := 0.45, y := 0.475, width := 0.012, height := 0.01 },
  { id := 38, name := ("L Sacral Ala (Sup 2)"), x := 0.462, y := 0.475, width := 0.013, height := 0.01 },
  { id := 38, name := ("L Sacrum (TL 1a)"), x := 0.41, y := 0.46, width := 0.01, height := 0.01 },
  { id := 38, name := ("L Sacrum (TL 1b)"), x := 0.42, y := 0.46, width := 0.01, height := 0.01 },
  { id := 38, name := ("L Sacrum (TL 2a)"), x := 0.43, y := 0.46, width := 0.01, height := 0.01 },
  { id := 38, name := ("L Sacrum (TL 2b)"), x := 0.44, y := 0.46, width := 0.01, height := 0.01 },
  { id := 38, name := ("L Sacrum (TL 3a)"), x := 0.41, y := 0.47, width := 0.01, height := 0.01 },
  { id := 38, name := ("L Sacrum (TL 3b)"), x := 0.42, y := 0.47, width := 0.01, height := 0.01 },
  { id := 38, name := ("L Sacrum (TL 4a)"), x := 0.41, y := 0.48, width := 0.01, height := 0.01 },
  { id := 38, name := ("L Sacrum (TL 4b)"), x := 0.42, y := 0.48, width := 0.01, height := 0.01 },
  { id := 39, name := ("Lumbar Spine (L1-L3 - Right Paraspinal)"), x := 0.50, y := 0.39, width := 0.025, height := 0.05 }]

/-- Entries 205-238 of the `backHotspots` catalog literal (the literal is split into chunks purely for elaboration speed; `backHotspots` below is their concatenation in source order). -/
def backHotspotsChunk6 : List Hotspot := [
  { id := 39, name := ("Lumbar Spine (L4-L5 - Right Paraspinal)"), x := 0.50, y := 0.44, width := 0.025, height := 0.04 },
  { id := 39, name := ("Right Lumbar Erector Spinae"), x := 0.53, y := 0.39, width := 0.06, height := 0.09 },
  { id := 39, name := ("Right Gluteal (Superior)"), x := 0.55, y := 0.48, width := 0.1, height := 0.05 },
  { id := 39, name := ("R Gluteal (Mid-Lateral)"), x := 0.64, y := 0.51, width := 0.07, height := 0.07 },
  { id := 39, name := ("R Gluteal (Mid-Medial)"), x := 0.56, y := 0.53, width := 0.08, height := 0.06 },
  { id := 39, name := ("R Ischial Tuberosity Area"), x := 0.56, y := 0.58, width := 0.06, height := 0.03 },
  { id := 39, name := ("R UpperOuterLumbar S1"), x := 0.57, y := 0.37, width := 0.01, height := 0.01 },
  { id := 39, name := ("R UpperOuterLumbar S2"), x := 0.58, y := 0.37, width := 0.01, height := 0.01 },
  { id := 39, name := ("R UpperOuterLumbar S3"), x := 0.59, y := 0.37, width := 0.01, height := 0.01 },
  { id := 39, name := ("R UpperOuterLumbar S4"), x := 0.60, y := 0.37, width := 0.01, height := 0.01 },
  { id := 39, name := ("R UpperOuterLumbar S5"), x := 0.57, y := 0.38, width := 0.01, height := 0.01 },
  { id := 39, name := ("R UpperOuterLumbar S6"), x := 0.58, y := 0.38, width := 0.01, height := 0.01 },
  { id := 39, name := ("R UpperOuterLumbar S7"), x := 0.59, y := 0.38, width := 0.01, height := 0.01 },
  { id := 39, name := ("R UpperOuterLumbar S8"), x := 0.60, y := 0.38, width := 0.01, height := 0.01 },
  { id := 39, name := ("R UpperOuterLumbar S9"), x := 0.57, y := 0.39, width := 0.01, height := 0.01 },
  { id := 39, name := ("R UpperOuterLumbar S10"), x := 0.58, y := 0.39, width := 0.01, height := 0.01 },
  { id := 39, name := ("R UpperOuterLumbar S11"), x := 0.59, y := 0.39, width := 0.01, height := 0.01 },
  { id := 39, name := ("R UpperOuterLumbar S12"), x := 0.60, y := 0.39, width := 0.01, height := 0.01 },
  { id := 39, name := ("R UpperOuterLumbar S13"), x := 0.57, y := 0.40, width := 0.01, height := 0.01 },
  { id := 39, name := ("R UpperOuterLumbar S14"), x := 0.58, y := 0.40, width := 0.01, height := 0.01 },
  { id := 39, name := ("R UpperOuterLumbar S15"), x := 0.59, y := 0.40, width := 0.01, height := 0.01 },
  { id := 39, name := ("R UpperOuterLumbar S16"), x := 0.60, y := 0.40, width := 0.01, height := 0.01 },
  { id := 39, name := ("R UpperOuterLumbar S17"), x := 0.565, y := 0.385, width := 0.01, height := 0.01 },
  { id := 39, name := ("R UpperOuterLumbar S18"), x := 0.565, y := 0.395, width := 0.01, height := 0.01 },
  { id := 39, name := ("R UpperOuterLumbar S19"), x := 0.605, y := 0.38, width := 0.01, height := 0.01 },
  { id := 39, name := ("R UpperOuterLumbar S20"), x := 0.605, y := 0.39, width := 0.01, height := 0.01 },
  { id := 39, name := ("R Lumbar TopOuter A1"), x := 0.59, y := 0.375, width := 0.01, height := 0.01 },
  { id := 39, name := ("R Lumbar TopOuter A2"), x := 0.58, y := 0.375, width := 0.01, height := 0.01 },
  { id := 39, name := ("R Lumbar TopOuter A3"), x := 0.59, y := 0.385, width := 0.01, height := 0.01 },
  { id := 39, name := ("R Lumbar TopOuter A4"), x := 0.58, y := 0.385, width := 0.01, height := 0.01 },
  { id := 39, name := ("R Lumbar TopOuter B1"), x := 0.60, y := 0.39, width := 0.01, height := 0.01 },
  { id := 39, name := ("R Lumbar TopOuter B2"), x := 0.59, y := 0.39, width := 0.01, height := 0.01 },
  { id := 39, name := ("R Lumbar TopOuter B3"), x := 0.60, y := 0.40, width := 0.01, height := 0.01 },
  { id := 39, name := ("R Lumbar TopOuter B4"), x := 0.59, y := 0.40, width := 0.01, height := 0.01 }]

/-- Entries 239-272 of the `backHotspots` catalog literal (the literal is split into chunks purely for elaboration speed; `backHotspots` below is their concatenation in source order). -/
def backHotspotsChunk7 : List Hotspot := [
  { id := 39, name := ("R Lumbar UpperLat C1"), x := 0.585, y := 0.405, width := 0.01, height := 0.01 },
  { id := 39, name := ("R Lumbar UpperLat C2"), x := 0.575, y := 0.405, width := 0.01, height := 0.01 },
  { id := 39, name := ("R Lumbar UpperLat C3"), x := 0.585, y := 0.415, width := 0.01, height := 0.01 },
  { id := 39, name := ("R Lumbar UpperLat C4"), x := 0.575, y := 0.415, width := 0.01, height := 0.01 },
  { id := 39, name := ("R Lumbar ES (SupLat 1)"), x := 0.52, y := 0.38, width := 0.015, height := 0.015 },
  { id := 39, name := ("R Lumbar ES (SupLat 2)"), x := 0.535, y := 0.38, width := 0.015, height := 0.015 },
  { id := 39, name := ("R Lumbar ES (SupLat 3)"), x := 0.52, y := 0.395, width := 0.015, height := 0.015 },
  { id := 39, name := ("R Lumbar ES (SupMid 1)"), x := 0.55, y := 0.38, width := 0.015, height := 0.015 },
  { id := 39, name := ("R Lumbar ES (SupMid 2)"), x := 0.565, y := 0.38, width := 0.015, height := 0.015 },
  { id := 39, name := ("R Lumbar ES (SupMid 3)"), x := 0.55, y := 0.395, width := 0.015, height := 0.015 },
  { id := 39, name := ("R Lumbar ES (MidLat 1)"), x := 0.52, y := 0.41, width := 0.015, height := 0.015 },
  { id := 39, name := ("R Lumbar ES (MidLat 2)"), x := 0.535, y := 0.41, width := 0.015, height := 0.015 },
  { id := 39, name := ("R Lumbar ES (MidLat 3)"), x := 0.52, y := 0.425, width := 0.015, height := 0.015 },
  { id := 39, name := ("R Lumbar Para (Sup 1)"), x := 0.50, y := 0.38, width := 0.012, height := 0.01 },
  { id := 39, name := ("R Lumbar Para (Sup 2)"), x := 0.512, y := 0.38, width := 0.013, height := 0.01 },
  { id := 39, name := ("R Lumbar Para (Sup 3)"), x := 0.50, y := 0.39, width := 0.012, height := 0.01 },
  { id := 39, name := ("R Lumbar Para (Mid 1)"), x := 0.50, y := 0.40, width := 0.012, height := 0.01 },
  { id := 39, name := ("R Lumbar Para (Mid 2)"), x := 0.512, y := 0.40, width := 0.013, height := 0.01 },
  { id := 39, name := ("R Lumbar Para (Mid 3)"), x := 0.50, y := 0.41, width := 0.012, height := 0.01 },
  { id := 39, name := ("R Lumbar (TR 1a)"), x := 0.57, y := 0.37, width := 0.01, height := 0.01 },
  { id := 39, name := ("R Lumbar (TR 1b)"), x := 0.58, y := 0.37, width := 0.01, height := 0.01 },
  { id := 39, name := ("R Lumbar (TR 2a)"), x := 0.55, y := 0.37, width := 0.01, height := 0.01 },
  { id := 39, name := ("R Lumbar (TR 2b)"), x := 0.56, y := 0.37, width := 0.01, height := 0.01 },
  { id := 39, name := ("R Lumbar (TR 3a)"), x := 0.57, y := 0.38, width := 0.01, height := 0.01 },
  { id := 39, name := ("R Lumbar (TR 3b)"), x := 0.58, y := 0.38, width := 0.01, height := 0.01 },
  { id := 39, name := ("R Glute SupLat (A1)"), x := 0.66, y := 0.47, width := 0.02, height := 0.015 },
  { id := 39, name := ("R Glute SupLat (A2)"), x := 0.64, y := 0.47, width := 0.02, height := 0.015 },
  { id := 39, name := ("R Glute SupLat (B1)"), x := 0.63, y := 0.475, width := 0.02, height := 0.015 },
  { id := 39, name := ("R Glute SupLat (B2)"), x := 0.61, y := 0.475, width := 0.02, height := 0.015 },
  { id := 39, name := ("R Glute SupMidLat (1)"), x := 0.66, y := 0.49, width := 0.025, height := 0.015 },
  { id := 39, name := ("R Glute SupMidLat (2)"), x := 0.635, y := 0.49, width := 0.025, height := 0.015 },
  { id := 39, name := ("R Glute UpOut (1)"), x := 0.68, y := 0.48, width := 0.02, height := 0.015 },
  { id := 39, name := ("R Glute UpOut (2)"), x := 0.66, y := 0.48, width := 0.02, height := 0.015 },
  { id := 39, name := ("R Glute TR (1a)"), x := 0.68, y := 0.47, width := 0.01, height := 0.01 }]

/-- Entries 273-306 of the `backHotspots` catalog literal (the literal is split into chunks purely for elaboration speed; `backHotspots` below is their concatenation in source order). -/
def backHotspotsChunk8 : List Hotspot := [
  { id := 39, name := ("R Glute TR (1b)"), x := 0.67, y := 0.47, width := 0.01, height := 0.01 },
  { id := 39, name := ("R Glute TR (2a)"), x := 0.66, y := 0.46, width := 0.01, height := 0.01 },
  { id := 39, name := ("R Glute TR (2b)"), x := 0.65, y := 0.46, width := 0.01, height := 0.01 },
  { id := 39, name := ("R Glute TR (3a)"), x := 0.64, y := 0.47, width := 0.01, height := 0.01 },
  { id := 39, name := ("R Glute TR (3b)"), x := 0.63, y := 0.47, width := 0.01, height := 0.01 },
  { id := 39, name := ("R Glute TR (4a)"), x := 0.62, y := 0.46, width := 0.01, height := 0.01 },
  { id := 39, name := ("R Glute TR (4b)"), x := 0.61, y := 0.46, width := 0.01, height := 0.01 },
  { id := 39, name := ("R Glute TR (5a)"), x := 0.65, y := 0.485, width := 0.01, height := 0.01 },
  { id := 39, name := ("R Glute TR (5b)"), x := 0.64, y := 0.485, width := 0.01, height := 0.01 },
  { id := 39, name := ("R Glute TR (6a)"), x := 0.63, y := 0.495, width := 0.01, height := 0.01 },
  { id := 39, name := ("R Glute TR (6b)"), x := 0.62, y := 0.495, width := 0.01, height := 0.01 },
  { id := 39, name := ("R Glute (Superior Medial 1)"), x := 0.60, y := 0.48, width := 0.02, height := 0.015 },
  { id := 39, name := ("R Glute (Superior Medial 2)"), x := 0.58, y := 0.48, width := 0.02, height := 0.015 },
  { id := 39, name := ("R Glute (Superior Medial 3)"), x := 0.59, y := 0.49, width := 0.02, height := 0.015 },
  { id := 39, name := ("R UpperLateralThigh S1"), x := 0.68, y := 0.50, width := 0.01, height := 0.02 },
  { id := 39, name := ("R UpperLateralThigh S2"), x := 0.69, y := 0.50, width := 0.01, height := 0.02 },
  { id := 39, name := ("R UpperLateralThigh S3"), x := 0.70, y := 0.50, width := 0.01, height := 0.02 },
  { id := 39, name := ("R UpperLateralThigh S4"), x := 0.68, y := 0.52, width := 0.01, height := 0.02 },
  { id := 39, name := ("R UpperLateralThigh S5"), x := 0.69, y := 0.52, width := 0.01, height := 0.02 },
  { id := 39, name := ("R UpperLateralThigh S6"), x := 0.70, y := 0.52, width := 0.01, height := 0.02 },
  { id := 39, name := ("R UpperLateralThigh S7"), x := 0.68, y := 0.54, width := 0.01, height := 0.02 },
  { id := 39, name := ("R UpperLateralThigh S8"), x := 0.69, y := 0.54, width := 0.01, height := 0.02 },
  { id := 39, name := ("R UpperLateralThigh S9"), x := 0.70, y := 0.54, width := 0.01, height := 0.02 },
  { id := 39, name := ("R UpperLateralThigh S10"), x := 0.68, y := 0.56, width := 0.01, height := 0.02 },
  { id := 39, name := ("R UpperLateralThigh S11"), x := 0.69, y := 0.56, width := 0.01, height := 0.02 },
  { id := 39, name := ("R UpperLateralThigh S12"), x := 0.70, y := 0.56, width := 0.01, height := 0.02 },
  { id := 39, name := ("R UpperLateralThigh S13"), x := 0.68, y := 0.58, width := 0.01, height := 0.02 },
  { id := 39, name := ("R UpperLateralThigh S14"), x := 0.69, y := 0.58, width := 0.01, height := 0.02 },
  { id := 39, name := ("R UpperLateralThigh S15"), x := 0.70, y := 0.58, width := 0.01, height := 0.02 },
  { id := 39, name := ("Right Posterior Superior Iliac Spine (PSIS)"), x := 0.54, y := 0.47, width := 0.04, height := 0.03 },
  { id := 39, name := ("R Sacrum TopOuter A1"), x := 0.58, y := 0.455, width := 0.01, height := 0.01 },
  { id := 39, name := ("R Sacrum TopOuter A2"), x := 0.57, y := 0.455, width := 0.01, height := 0.01 },
  { id := 39, name := ("R Sacrum TopOuter A3"), x := 0.58, y := 0.465, width := 0.01, height := 0.01 },
  { id := 39, name := ("R Sacrum TopOuter A4"), x := 0.57, y := 0.465, width := 0.01, height := 0.01 }]

/-- Entries 307-340 of the `backHotspots` catalog literal (the literal is split into chunks purely for elaboration speed; `backHotspots` below is their concatenation in source order). -/
def backHotspotsChunk9 : List Hotspot := [
  { id := 39, name := ("R Sacrum UpperLat B1"), x := 0.565, y := 0.47, width := 0.01, height := 0.01 },
  { id := 39, name := ("R Sacrum UpperLat B2"), x := 0.555, y := 0.47, width := 0.01, height := 0.01 },
  { id := 39, name := ("R Sacrum UpperLat B3"), x := 0.565, y := 0.48, width := 0.01, height := 0.01 },
  { id := 39, name := ("R Sacrum UpperLat B4"), x := 0.555, y := 0.48, width := 0.01, height := 0.01 },
  { id := 39, name := ("R PSIS (Sup 1)"), x := 0.54, y := 0.46, width := 0.02, height := 0.01 },
  { id := 39, name := ("R PSIS (Sup 2)"), x := 0.56, y := 0.46, width := 0.02, height := 0.01 },
  { id := 39, name := ("R PSIS (Lat 1)"), x := 0.58, y := 0.47, width := 0.01, height := 0.015 },
  { id := 39, name := ("R PSIS (Lat 2)"), x := 0.57, y := 0.47, width := 0.01, height := 0.015 },
  { id := 39, name := ("R SI Area (Sup 1)"), x := 0.53, y := 0.465, width := 0.015, height := 0.012 },
  { id := 39, name := ("R SI Area (Sup 2)"), x := 0.515, y := 0.465, width := 0.015, height := 0.013 },
  { id := 39, name := ("R Sacral Ala (Sup 1)"), x := 0.525, y := 0.475, width := 0.012, height := 0.01 },
  { id := 39, name := ("R Sacral Ala (Sup 2)"), x := 0.513, y := 0.475, width := 0.012, height := 0.01 },
  { id := 39, name := ("R Sacrum (TR 1a)"), x := 0.57, y := 0.46, width := 0.01, height := 0.01 },
  { id := 39, name := ("R Sacrum (TR 1b)"), x := 0.56, y := 0.46, width := 0.01, height := 0.01 },
  { id := 39, name := ("R Sacrum (TR 2a)"), x := 0.55, y := 0.46, width := 0.01, height := 0.01 },
  { id := 39, name := ("R Sacrum (TR 2b)"), x := 0.54, y := 0.46, width := 0.01, height := 0.01 },
  { id := 39, name := ("R Sacrum (TR 3a)"), x := 0.57, y := 0.47, width := 0.01, height := 0.01 },
  { id := 39, name := ("R Sacrum (TR 3b)"), x := 0.56, y := 0.47, width := 0.01, height := 0.01 },
  { id := 39, name := ("R Sacrum (TR 4a)"), x := 0.57, y := 0.48, width := 0.01, height := 0.01 },
  { id := 39, name := ("R Sacrum (TR 4b)"), x := 0.56, y := 0.48, width := 0.01, height := 0.01 },
  { id := 39, name := ("Sacrum (Midline)"), x := 0.475, y := 0.48, width := 0.05, height := 0.04 },
  { id := 39, name := ("Sacrum (Sup Cent 1)"), x := 0.475, y := 0.47, width := 0.025, height := 0.01 },
  { id := 39, name := ("Sacrum (Sup Cent 2)"), x := 0.50, y := 0.47, width := 0.025, height := 0.01 },
  { id := 39, name := ("Sacrum (Mid Cent 1)"), x := 0.475, y := 0.49, width := 0.025, height := 0.01 },
  { id := 39, name := ("Sacrum (Mid Cent 2)"), x := 0.50, y := 0.49, width := 0.025, height := 0.01 },
  { id := 40, name := ("Left Proximal Hamstring"), x := 0.33, y := 0.60, width := 0.11, height := 0.06 },
  { id := 40, name := ("L LowerLateralThigh S16"), x := 0.28, y := 0.60, width := 0.01, height := 0.02 },
  { id := 40, name := ("L LowerLateralThigh S17"), x := 0.29, y := 0.60, width := 0.01, height := 0.02 },
  { id := 40, name := ("L LowerLateralThigh S18"), x := 0.30, y := 0.60, width := 0.01, height := 0.02 },
  { id := 40, name := ("L LowerLateralThigh S19"), x := 0.28, y := 0.62, width := 0.01, height := 0.02 },
  { id := 40, name := ("L LowerLateralThigh S20"), x := 0.29, y := 0.62, width := 0.01, height := 0.02 },
  { id := 40, name := ("L LowerLateralThigh S21"), x := 0.30, y := 0.62, width := 0.01, height := 0.02 },
  { id := 40, name := ("L LowerLateralThigh S22"), x := 0.28, y := 0.64, width := 0.01, height := 0.02 },
  { id := 40, name := ("L LowerLateralThigh S23"), x := 0.29, y := 0.64, width := 0.01, height := 0.02 }]

/-- Entries 341-374 of the `backHotspots` catalog literal (the literal is split into chunks purely for elaboration speed; `backHotspots` below is their concatenation in source order). -/
def backHotspotsChunk10 : List Hotspot := [
  { id := 40, name := ("L LowerLateralThigh S24"), x := 0.30, y := 0.64, width := 0.01, height := 0.02 },
  { id := 40, name := ("L LowerLateralThigh S25"), x := 0.28, y := 0.66, width := 0.01, height := 0.02 },
  { id := 40, name := ("L LowerLateralThigh S26"), x := 0.29, y := 0.66, width := 0.01, height := 0.02 },
  { id := 40, name := ("L LowerLateralThigh S27"), x := 0.30, y := 0.66, width := 0.01, height := 0.02 },
  { id := 40, name := ("L LowerLateralThigh S28"), x := 0.28, y := 0.68, width := 0.01, height := 0.02 },
  { id := 40, name := ("L LowerLateralThigh S29"), x := 0.29, y := 0.68, width := 0.01, height := 0.02 },
  { id := 40, name := ("L LowerLateralThigh S30"), x := 0.30, y := 0.68, width := 0.01, height := 0.02 },
  { id := 41, name := ("Right Proximal Hamstring"), x := 0.56, y := 0.60, width := 0.11, height := 0.06 },
  { id := 41, name := ("R LowerLateralThigh S16"), x := 0.68, y := 0.60, width := 0.01, height := 0.02 },
  { id := 41, name := ("R LowerLateralThigh S17"), x := 0.69, y := 0.60, width := 0.01, height := 0.02 },
  { id := 41, name := ("R LowerLateralThigh S18"), x := 0.70, y := 0.60, width := 0.01, height := 0.02 },
  { id := 41, name := ("R LowerLateralThigh S19"), x := 0.68, y := 0.62, width := 0.01, height := 0.02 },
  { id := 41, name := ("R LowerLateralThigh S20"), x := 0.69, y := 0.62, width := 0.01, height := 0.02 },
  { id := 41, name := ("R LowerLateralThigh S21"), x := 0.70, y := 0.62, width := 0.01, height := 0.02 },
  { id := 41, name := ("R LowerLateralThigh S22"), x := 0.68, y := 0.64, width := 0.01, height := 0.02 },
  { id := 41, name := ("R LowerLateralThigh S23"), x := 0.69, y := 0.64, width := 0.01, height := 0.02 },
  { id := 41, name := ("R LowerLateralThigh S24"), x := 0.70, y := 0.64, width := 0.01, height := 0.02 },
  { id := 41, name := ("R LowerLateralThigh S25"), x := 0.68, y := 0.66, width := 0.01, height := 0.02 },
  { id := 41, name := ("R LowerLateralThigh S26"), x := 0.69, y := 0.66, width := 0.01, height := 0.02 },
  { id := 41, name := ("R LowerLateralThigh S27"), x := 0.70, y := 0.66, width := 0.01, height := 0.02 },
  { id := 41, name := ("R LowerLateralThigh S28"), x := 0.68, y := 0.68, width := 0.01, height := 0.02 },
  { id := 41, name := ("R LowerLateralThigh S29"), x := 0.69, y := 0.68, width := 0.01, height := 0.02 },
  { id := 41, name := ("R LowerLateralThigh S30"), x := 0.70, y := 0.68, width := 0.01, height := 0.02 },
  { id := 42, name := ("Left Mid-Hamstring"), x := 0.33, y := 0.66, width := 0.11, height := 0.06 },
  { id := 42, name := ("Left Distal Hamstring (Popliteal Superior)"), x := 0.34, y := 0.72, width := 0.1, height := 0.04 },
  { id := 42, name := ("Left Calf (Gastrocnemius - Medial Head)"), x := 0.37, y := 0.76, width := 0.06, height := 0.07 },
  { id := 42, name := ("Left Calf (Gastrocnemius - Lateral Head)"), x := 0.30, y := 0.76, width := 0.06, height := 0.07 },
  { id := 42, name := ("Left Calf (Soleus - Mid)"), x := 0.33, y := 0.83, width := 0.08, height := 0.06 },
  { id := 42, name := ("Left Lateral Shin (Posterior)"), x := 0.28, y := 0.80, width := 0.05, height := 0.08 },
  { id := 43, name := ("Right Mid-Hamstring"), x := 0.56, y := 0.66, width := 0.11, height := 0.06 },
  { id := 43, name := ("Right Distal Hamstring (Popliteal Superior)"), x := 0.56, y := 0.72, width := 0.1, height := 0.04 },
  { id := 43, name := ("Right Calf (Gastrocnemius - Medial Head)"), x := 0.57, y := 0.76, width := 0.06, height := 0.07 },
  { id := 43, name := ("Right Calf (Gastrocnemius - Lateral Head)"), x := 0.64, y := 0.76, width := 0.06, height := 0.07 },
  { id := 43, name := ("Right Calf (Soleus - Mid)"), x := 0.59, y := 0.83, width := 0.08, height := 0.06 }]

/-- Entries 375-389 of the `backHotspots` catalog literal (the literal is split into chunks purely for elaboration speed; `backHotspots` below is their concatenation in source order). -/
def backHotspotsChunk11 : List Hotspot := [
  { id := 43, name := ("Right Lateral Shin (Posterior)"), x := 0.67, y := 0.80, width := 0.05, height := 0.08 },
  { id := 44, name := ("Left Achilles Tendon"), x := 0.35, y := 0.89, width := 0.05, height := 0.04 },
  { id := 44, name := ("Left Heel (Posterior)"), x := 0.35, y := 0.93, width := 0.06, height := 0.03 },
  { id := 44, name := ("Left Sole (Plantar Heel)"), x := 0.34, y := 0.96, width := 0.07, height := 0.03, isDetail := true },
  { id := 44, name := ("Left Sole (Plantar Arch - Medial)"), x := 0.37, y := 0.95, width := 0.04, height := 0.02, isDetail := true },
  { id := 44, name := ("Left Sole (Plantar Arch - Lateral)"), x := 0.31, y := 0.95, width := 0.04, height := 0.02, isDetail := true },
  { id := 44, name := ("Left Sole (Plantar Forefoot - Medial)"), x := 0.36, y := 0.94, width := 0.04, height := 0.02, isDetail := true },
  { id := 44, name := ("Left Sole (Plantar Forefoot - Lateral)"), x := 0.30, y := 0.94, width := 0.04, height := 0.02, isDetail := true },
  { id := 45, name := ("Right Achilles Tendon"), x := 0.60, y := 0.89, width := 0.05, height := 0.04 },
  { id := 45, name := ("Right Heel (Posterior)"), x := 0.59, y := 0.93, width := 0.06, height := 0.03 },
  { id := 45, name := ("Right Sole (Plantar Heel)"), x := 0.59, y := 0.96, width := 0.07, height := 0.03, isDetail := true },
  { id := 45, name := ("Right Sole (Plantar Arch - Medial)"), x := 0.59, y := 0.95, width := 0.04, height := 0.02, isDetail := true },
  { id := 45, name := ("Right Sole (Plantar Arch - Lateral)"), x := 0.65, y := 0.95, width := 0.04, height := 0.02, isDetail := true },
  { id := 45, name := ("Right Sole (Plantar Forefoot - Medial)"), x := 0.60, y := 0.94, width := 0.04, height := 0.02, isDetail := true },
  { id := 45, name := ("Right Sole (Plantar Forefoot - Lateral)"), x := 0.66, y := 0.94, width := 0.04, height := 0.02, isDetail := true }]

/-- The `backHotspots` catalog of PainMappingStep.tsx, in definition order. -/
def backHotspots : List Hotspot := backHotspotsChunk0 ++ backHotspotsChunk1 ++ backHotspotsChunk2 ++ backHotspotsChunk3 ++ backHotspotsChunk4 ++ backHotspotsChunk5 ++ backHotspotsChunk6 ++ backHotspotsChunk7 ++ backHotspotsChunk8 ++ backHotspotsChunk9 ++ backHotspotsChunk10 ++ backHotspotsChunk11

/-- Coordinates of a pain-area record (`coordinates: {x, y}`). -/
structure Coordinates where
  x : ℚ
  y : ℚ
deriving DecidableEq, Repr

/-- A record of the pain-area store (`PainArea`), as kept in
`formData.painAreas`. -/
structure PainArea where
  id : String
  region : String
  intensity : Int
  coordinates : Coordinates
  notes : String
deriving DecidableEq, Repr

/-- String form of a view, as interpolated into template literals. -/
def viewStr : BodyView → String
  | BodyView.front => ("front")
  | BodyView.back => ("back")

/-- JavaScript `Math.round`: round half toward positive infinity,
so `Math.round(x) = ⌊x + 0.5⌋` for every finite `x`. -/
def jsRound (q : ℚ) : Int := ⌊q + 1/2⌋

/-- Center X of a hotspot bounding box in displayed-image space:
`hotspot.x * imageWidth + (hotspot.width * imageWidth) / 2`. -/
def hsCenterX (hotspot : Hotspot) (imageWidth : ℚ) : ℚ :=
  hotspot.x * imageWidth + (hotspot.width * imageWidth) / 2

/-- Center Y of a hotspot bounding box in displayed-image space. -/
def hsCenterY (hotspot : Hotspot) (imageHeight : ℚ) : ℚ :=
  hotspot.y * imageHeight + (hotspot.height * imageHeight) / 2

/-- Squared Euclidean distance from the click to a hotspot's bounding-box
center; the source takes `Math.sqrt` of exactly this quantity. -/
def distSq (hotspot : Hotspot) (imageWidth imageHeight clickX clickY : ℚ) : ℚ :=
  (clickX - hsCenterX hotspot imageWidth)^2 + (clickY - hsCenterY hotspot imageHeight)^2

/-- One iteration of the `for (const hotspot of hotspotsToSearch)` loop. The
accumulator is `none` for the initial state `closestHotspot = null`,
`minDistance = Infinity` (against which the first comparison always
succeeds), and `some (h, d)` once a candidate is held; the incumbent is kept
unless the new distance is strictly smaller. The loop compares
`Math.sqrt(distSq ...) < Math.sqrt(minDistSq ...)`, which by strict
monotonicity of the square root on nonnegative arguments is equivalent to
the comparison of squared distances carried here. -/
def resolveStep (imageWidth imageHeight clickX clickY : ℚ)
    (acc : Option (Hotspot × ℚ)) (hotspot : Hotspot) : Option (Hotspot × ℚ) :=
  let distance := distSq hotspot imageWidth imageHeight clickX clickY
  match acc with
  | none => some (hotspot, distance)
  | some (_, minDistance) =>
      if distance < minDistance then some (hotspot, distance) else acc

/-- The nearest-centroid search of `handleImageClick` (source lines
730-746), returning the hotspot held when the loop ends. -/
def findClosest (hotspots : List Hotspot) (imageWidth imageHeight clickX clickY : ℚ) :
    Option Hotspot :=
  (hotspots.foldl (resolveStep imageWidth imageHeight clickX clickY) none).map Prod.fst

/-- The `notes` string written at record creation:
`View: <view>, RegionID: <id>` with a `, Detail: <name>` suffix for
detail-variant hotspots. -/
def mkNotes (currentView : BodyView) (closestHotspot : Hotspot) : String :=
  let notes := ("View: ") ++ viewStr currentView ++ (", RegionID: ") ++ toString closestHotspot.id
  if closestHotspot.isDetail then notes ++ (", Detail: ") ++ closestHotspot.name else notes

/-- The `newPainArea` record literal built on an accepted match: id from
`Date.now()`, region copied from the hotspot name, default intensity 5,
click coordinates divided by the CSS display scale 0.85, and the notes
string encoding view and group id. -/
def mkPainArea (now : Nat) (currentView : BodyView) (closestHotspot : Hotspot)
    (clickX clickY : ℚ) : PainArea :=
  { id := ("point-") ++ toString now
  , region := closestHotspot.name
  , intensity := 5
  , coordinates := { x := clickX / 0.85, y := clickY / 0.85 }
  , notes := mkNotes currentView closestHotspot }

/-- Ambient state read by one click-handler invocation: displayed image
size, the offscreen canvas (`none` when `canvasRef.current` is null,
otherwise its width and height), whether `getContext` succeeds, the raster
alpha channel at a natural-space pixel, the active view, and the value
`Date.now()` returns during the handler. -/
structure ClickEnv where
  imageWidth : ℚ
  imageHeight : ℚ
  canvas : Option (Nat × Nat)
  ctxOk : Bool
  alpha : Int → Int → Nat
  currentView : BodyView
  now : Nat

/-- The click mapped from displayed space to natural (canvas) space:
`Math.round((clickX / imageWidth) * naturalWidth)`, likewise for Y. -/
def canvasClick (env : ClickEnv) (clickX clickY : ℚ) (naturalWidth naturalHeight : Nat) :
    Int × Int :=
  (jsRound (clickX / env.imageWidth * naturalWidth),
   jsRound (clickY / env.imageHeight * naturalHeight))

/-- The handler `handleImageClick`, generalized over the two catalog
constants it closes over; it returns the updated `painAreas` store, each
early `return` leaving the store unchanged. `handleImageClick` below
instantiates it with the real catalogs. -/
def handleImageClickGen (frontCat backCat : List Hotspot) (env : ClickEnv)
    (painAreas : List PainArea) (clickX clickY : ℚ) : List PainArea :=
  if clickX < 0 ∨ clickX > env.imageWidth ∨ clickY < 0 ∨ clickY > env.imageHeight then
    painAreas
  else
    match env.canvas with
    | none => painAreas
    | some (naturalWidth, naturalHeight) =>
      if naturalWidth = 0 ∨ naturalHeight = 0 then painAreas
      else
        let canvasClickX : Int := (canvasClick env clickX clickY naturalWidth naturalHeight).1
        let canvasClickY : Int := (canvasClick env clickX clickY naturalWidth naturalHeight).2
        if ¬ env.ctxOk then painAreas
        else if canvasClickX < 0 ∨ canvasClickX ≥ (naturalWidth : Int) ∨
            canvasClickY < 0 ∨ canvasClickY ≥ (naturalHeight : Int) then painAreas
        else if env.alpha canvasClickX canvasClickY < 10 then painAreas
        else
          let hotspotsToSearch := if env.currentView = BodyView.front then frontCat else backCat
          if hotspotsToSearch.length = 0 then painAreas
          else
            match findClosest hotspotsToSearch env.imageWidth env.imageHeight clickX clickY with
            | none => painAreas
            | some closestHotspot =>
              painAreas ++ [mkPainArea env.now env.currentView closestHotspot clickX clickY]

/-- The handler with the two catalog constants of the source. -/
def handleImageClick (env : ClickEnv) (painAreas : List PainArea) (clickX clickY : ℚ) :
    List PainArea :=
  handleImageClickGen frontHotspots backHotspots env painAreas clickX clickY

/-- Removal (`removePainArea`): keep every record whose id differs
(`filter` with `area.id !== idToRemove`). -/
def removePainArea (painAreas : List PainArea) (idToRemove : String) : List PainArea :=
  painAreas.filter (fun area => area.id != idToRemove)

/-- Intensity update (`handleIntensityChange`): guarded by
`if (selectedPainArea)` where `selectedPainArea` is
`painAreas.find(area => area.id === selectedPainAreaId)`; when a record is
found, maps over the store replacing the intensity of every record whose id
matches. -/
def handleIntensityChange (painAreas : List PainArea) (selectedPainAreaId : String)
    (newIntensity : Int) : List PainArea :=
  match painAreas.find? (fun area => area.id == selectedPainAreaId) with
  | none => painAreas
  | some _ =>
      painAreas.map (fun area =>
        if area.id == selectedPainAreaId then { area with intensity := newIntensity } else area)

/-- Substring test on character lists: does `pat` occur starting exactly at
the head of `text`? -/
def patMatchesHere : List Char → List Char → Bool
  | [], _ => true
  | _ :: _, [] => false
  | p :: ps, c :: cs => p == c && patMatchesHere ps cs

/-- Substring occurrence anywhere in the text (the semantics of
JavaScript `String.prototype.includes`). -/
def patOccurs (pat : List Char) : List Char → Bool
  | [] => patMatchesHere pat []
  | c :: cs => patMatchesHere pat (c :: cs) || patOccurs pat cs

/-- JavaScript `s.includes(pat)`. -/
def strIncludes (s pat : String) : Bool := patOccurs pat.toList s.toList

/-- The marker-rendering filter over the store,
`painAreas.filter(area => area.notes?.includes("View: " + currentView))`;
this is the `filterByView` operation of the specification. `notes` is
always a string in this model, matching every record the handler creates. -/
def filterByView (painAreas : List PainArea) (currentView : BodyView) : List PainArea :=
  painAreas.filter (fun area => strIncludes area.notes (("View: ") ++ viewStr currentView))

/-- Containment of all four bounding-box fields in the unit interval. -/
def hotspotInUnitBox (h : Hotspot) : Prop :=
  (0 ≤ h.x ∧ h.x ≤ 1) ∧ (0 ≤ h.y ∧ h.y ≤ 1) ∧
  (0 ≤ h.width ∧ h.width ≤ 1) ∧ (0 ≤ h.height ∧ h.height ≤ 1)

instance : DecidablePred hotspotInUnitBox := fun h => by
  unfold hotspotInUnitBox
  infer_instance


/-! Predicates naming the four no-match conditions and the set of guards
that must pass before the pixel sample is taken. -/

/-- Click outside the displayed image's rectangle (the first guard). -/
def clickOutsideBounds (env : ClickEnv) (clickX clickY : ℚ) : Prop :=
  clickX < 0 ∨ clickX > env.imageWidth ∨ clickY < 0 ∨ clickY > env.imageHeight

instance (env : ClickEnv) (clickX clickY : ℚ) :
    Decidable (clickOutsideBounds env clickX clickY) := by
  unfold clickOutsideBounds
  infer_instance

/-- Raster buffer not yet populated: the canvas ref is null, or the canvas
has a zero dimension. -/
def rasterNotReady (env : ClickEnv) : Prop :=
  env.canvas = none ∨ ∃ nw nh : Nat, env.canvas = some (nw, nh) ∧ (nw = 0 ∨ nh = 0)

/-- The click maps to a raster pixel whose alpha is below the near-zero
threshold 10, whatever the canvas dimensions turn out to be. -/
def transparentPixel (env : ClickEnv) (clickX clickY : ℚ) : Prop :=
  ∀ nw nh : Nat, env.canvas = some (nw, nh) →
    env.alpha (canvasClick env clickX clickY nw nh).1 (canvasClick env clickX clickY nw nh).2 < 10

/-- Empty hotspot catalog for the active view. -/
def emptyCatalog (frontCat backCat : List Hotspot) (env : ClickEnv) : Prop :=
  (if env.currentView = BodyView.front then frontCat else backCat) = []

/-- All guards up to and including the natural-bounds check pass, so the
handler reaches `getImageData` (the pixel sample). -/
def reachesSampling (env : ClickEnv) (clickX clickY : ℚ) (nw nh : Nat) : Prop :=
  ¬ clickOutsideBounds env clickX clickY ∧ env.canvas = some (nw, nh) ∧
  ¬ (nw = 0 ∨ nh = 0) ∧ env.ctxOk = true ∧
  ¬ ((canvasClick env clickX clickY nw nh).1 < 0 ∨
     (canvasClick env clickX clickY nw nh).1 ≥ (nw : Int) ∨
     (canvasClick env clickX clickY nw nh).2 < 0 ∨
     (canvasClick env clickX clickY nw nh).2 ≥ (nh : Int))

instance (env : ClickEnv) (clickX clickY : ℚ) (nw nh : Nat) :
    Decidable (reachesSampling env clickX clickY nw nh) := by
  unfold reachesSampling
  infer_instance

/-! Demo fixtures used by witnesses and counterexamples. -/

/-- A fully opaque 400x800 raster shown at 100x200, front view, with the
handler running at a fixed `Date.now()` value. -/
def demoEnv : ClickEnv :=
  { imageWidth := 100, imageHeight := 200, canvas := some (400, 800), ctxOk := true
  , alpha := fun _ _ => 255, currentView := BodyView.front, now := 1700000000000 }

/-- A stored front-view record. -/
def demoRecordA : PainArea :=
  { id := ("point-1"), region := ("Left Patella"), intensity := 5
  , coordinates := { x := 40, y := 150 }, notes := ("View: front, RegionID: 21") }

/-- A stored back-view record. -/
def demoRecordB : PainArea :=
  { id := ("point-2"), region := ("Sacrum (Midline Superior)"), intensity := 8
  , coordinates := { x := 55, y := 300 }, notes := ("View: back, RegionID: 33") }

/-- A two-record store. -/
def demoStore : List PainArea := [demoRecordA, demoRecordB]

/-! Store theorems: remove, intensity update. -/

/-- C7: `remove` is idempotent and tolerant. Removing twice equals removing
once; removing an id absent from the store leaves it unchanged; the result
contains exactly the records whose id differs, as a sublist (original order,
nothing else touched). -/
theorem c7_remove_idempotent_tolerant (painAreas : List PainArea) (idToRemove : String) :
    removePainArea (removePainArea painAreas idToRemove) idToRemove =
      removePainArea painAreas idToRemove ∧
    ((∀ a ∈ painAreas, a.id ≠ idToRemove) → removePainArea painAreas idToRemove = painAreas) ∧
    (∀ a : PainArea, a ∈ removePainArea painAreas idToRemove ↔
      a ∈ painAreas ∧ a.id ≠ idToRemove) ∧
    (removePainArea painAreas idToRemove).Sublist painAreas := by
  refine ⟨?_, ?_, ?_, ?_⟩
  · exact List.filter_eq_self.mpr (fun a ha => (List.mem_filter.mp ha).2)
  · intro hall
    exact List.filter_eq_self.mpr (fun a ha => bne_iff_ne.mpr (hall a ha))
  · intro a
    simp [removePainArea, List.mem_filter, bne_iff_ne]
  · exact List.filter_sublist painAreas

/-- Witness for C7 at a concrete store: double removal of a present id, and
removal of an absent id. -/
theorem c7_witness :
    removePainArea (removePainArea demoStore ("point-1")) ("point-1") =
      removePainArea demoStore ("point-1") ∧
    removePainArea demoStore ("point-9") = demoStore :=
  ⟨(c7_remove_idempotent_tolerant demoStore ("point-1")).1,
   (c7_remove_idempotent_tolerant demoStore ("point-9")).2.1 (by decide)⟩

/-- C4 counterexample: the claimed `OutOfRangeError` rejection does not
exist. `setIntensity` with -1 or 11 succeeds and mutates the store, so the
store is not left unchanged on out-of-range values. -/
theorem c4_counterexample :
    handleIntensityChange demoStore ("point-1") (-1) ≠ demoStore ∧
    (handleIntensityChange demoStore ("point-1") (-1)).map PainArea.intensity = [-1, 8] ∧
    (handleIntensityChange demoStore ("point-1") 11).map PainArea.intensity = [11, 8] := by
  decide

/-- C4 amended: the store applies no range validation at all. For every
integer `v` (in range or not), when a record with the selected id exists the
update maps over the store replacing the intensity of the matching records
with `v`; in particular 0 and 10, but equally -1 and 11, all succeed. -/
theorem c4_amended_no_validation (painAreas : List PainArea) (i : String) (v : Int)
    (hex : ∃ a ∈ painAreas, a.id = i) :
    handleIntensityChange painAreas i v =
      painAreas.map (fun area =>
        if area.id == i then { area with intensity := v } else area) ∧
    ∀ a ∈ handleIntensityChange painAreas i v, a.id = i → a.intensity = v := by
  obtain ⟨b, hb, hbi⟩ := hex
  have hsome : (painAreas.find? (fun area => area.id == i)).isSome :=
    List.find?_isSome.mpr ⟨b, hb, by simp [hbi]⟩
  have heq : handleIntensityChange painAreas i v =
      painAreas.map (fun area =>
        if area.id == i then { area with intensity := v } else area) := by
    unfold handleIntensityChange
    cases hfind : painAreas.find? (fun area => area.id == i) with
    | none => rw [hfind] at hsome; simp at hsome
    | some a => rfl
  refine ⟨heq, ?_⟩
  intro a ha hai
  rw [heq] at ha
  obtain ⟨c, hc, hca⟩ := List.mem_map.mp ha
  by_cases hci : (c.id == i) = true
  · rw [if_pos hci] at hca
    rw [← hca]
  · rw [if_neg hci] at hca
    subst hca
    exact absurd (beq_iff_eq.mpr hai) hci

/-- Witness for the amended C4 at a concrete store and the out-of-range
value 11, which the store accepts. -/
theorem c4_witness :
    handleIntensityChange demoStore ("point-2") 11 =
      demoStore.map (fun area =>
        if area.id == ("point-2") then { area with intensity := 11 } else area) ∧
    ∀ a ∈ handleIntensityChange demoStore ("point-2") 11, a.id = ("point-2") → a.intensity = 11 :=
  c4_amended_no_validation demoStore ("point-2") 11 ⟨demoRecordB, by decide, rfl⟩

/-- C8: adding a record and then setting its intensity to `v ∈ [0,10]`
yields the same record with only the intensity replaced, appended after the
other records; every record with a different id is returned unchanged at its
original position. -/
theorem c8_roundtrip_frame (painAreas : List PainArea) (r : PainArea) (v : Int)
    (hv : 0 ≤ v ∧ v ≤ 10) :
    ∃ rest : List PainArea,
      handleIntensityChange (painAreas ++ [r]) r.id v = rest ++ [{ r with intensity := v }] ∧
      rest.length = painAreas.length ∧
      ∀ (i : Nat) (hi : i < painAreas.length), (painAreas.get ⟨i, hi⟩).id ≠ r.id →
        rest.get? i = some (painAreas.get ⟨i, hi⟩) := by
  refine ⟨painAreas.map (fun area =>
    if area.id == r.id then { area with intensity := v } else area), ?_, by simp, ?_⟩
  · have hsome : ((painAreas ++ [r]).find? (fun area => area.id == r.id)).isSome :=
      List.find?_isSome.mpr ⟨r, by simp, by simp⟩
    unfold handleIntensityChange
    cases hfind : (painAreas ++ [r]).find? (fun area => area.id == r.id) with
    | none => rw [hfind] at hsome; simp at hsome
    | some a => simp
  · intro i hi hne
    rw [List.get?_map, List.get?_eq_get hi]
    have hf : ((painAreas.get ⟨i, hi⟩).id == r.id) = false := beq_eq_false_iff_ne.mpr hne
    simp [hf]
    intro h
    exact absurd h hne

/-- Witness for C8: a fresh record appended to the demo store, intensity set
to 7. -/
theorem c8_witness :
    (0 ≤ (7 : Int) ∧ (7 : Int) ≤ 10) ∧
    ∃ rest : List PainArea,
      handleIntensityChange (demoStore ++ [demoRecordA]) demoRecordA.id 7 =
        rest ++ [{ demoRecordA with intensity := 7 }] ∧
      rest.length = demoStore.length ∧
      ∀ (i : Nat) (hi : i < demoStore.length), (demoStore.get ⟨i, hi⟩).id ≠ demoRecordA.id →
        rest.get? i = some (demoStore.get ⟨i, hi⟩) :=
  ⟨by decide, c8_roundtrip_frame demoStore demoRecordA 7 (by decide)⟩

/-! Resolver no-op and guard theorems. -/

/-- C2: each of the four no-match conditions (click outside the displayed
rectangle, raster not ready, transparent pixel, empty catalog for the active
view) makes the handler return the store unchanged: no record is added and,
the function being total, no error is raised. -/
theorem c2_no_match_is_noop (frontCat backCat : List Hotspot) (env : ClickEnv)
    (painAreas : List PainArea) (clickX clickY : ℚ)
    (hcond : clickOutsideBounds env clickX clickY ∨ rasterNotReady env ∨
      transparentPixel env clickX clickY ∨ emptyCatalog frontCat backCat env) :
    handleImageClickGen frontCat backCat env painAreas clickX clickY = painAreas := by
  by_cases h1 : clickX < 0 ∨ clickX > env.imageWidth ∨ clickY < 0 ∨ clickY > env.imageHeight
  · simp [handleImageClickGen, h1]
  · rcases hc : env.canvas with _ | ⟨nw, nh⟩
    · simp [handleImageClickGen, h1, hc]
    · by_cases h2 : nw = 0 ∨ nh = 0
      · simp [handleImageClickGen, h1, hc, h2]
      · by_cases h3 : env.ctxOk
        · by_cases h4 : (canvasClick env clickX clickY nw nh).1 < 0 ∨
              (canvasClick env clickX clickY nw nh).1 ≥ (nw : Int) ∨
              (canvasClick env clickX clickY nw nh).2 < 0 ∨
              (canvasClick env clickX clickY nw nh).2 ≥ (nh : Int)
          · simp [handleImageClickGen, h1, hc, h2, h3, h4]
          · rcases hcond with hx | hx | hx | hx
            · exact absurd hx h1
            · rcases hx with hnone | ⟨nw2, nh2, heq, hz⟩
              · rw [hc] at hnone
                cases hnone
              · rw [hc] at heq
                injection heq with heq2
                cases heq2
                exact absurd hz h2
            · have halpha := hx nw nh hc
              simp [handleImageClickGen, h1, hc, h2, h3, h4, halpha]
            · unfold emptyCatalog at hx
              have hlen : (if env.currentView = BodyView.front then frontCat
                  else backCat).length = 0 := by
                rw [hx]
                rfl
              by_cases h5 : env.alpha (canvasClick env clickX clickY nw nh).1
                  (canvasClick env clickX clickY nw nh).2 < 10
              · simp [handleImageClickGen, h1, hc, h2, h3, h4, h5]
              · simp [handleImageClickGen, h1, hc, h2, h3, h4, h5, hlen]
        · simp [handleImageClickGen, h1, hc, h2, h3]

/-- Witness for C2 at a concrete state: a click left of the image (x = -5)
leaves the demo store unchanged. -/
theorem c2_witness :
    clickOutsideBounds demoEnv (-5) 40 ∧
    handleImageClickGen frontHotspots backHotspots demoEnv demoStore (-5) 40 = demoStore :=
  ⟨by decide,
   c2_no_match_is_noop frontHotspots backHotspots demoEnv demoStore (-5) 40 (Or.inl (by decide))⟩

/-- C10: whenever the handler reaches the pixel sample, the natural-space
coordinates are strictly inside the canvas (`0 ≤ x < naturalWidth`,
`0 ≤ y < naturalHeight`), so the guarded `getImageData` is never called out
of bounds; and a click exactly on the displayed image's right or bottom edge
passes the displayed-bounds check yet is rejected by the natural-bounds
guard, so it adds no record. -/
theorem c10_sampling_guard (env : ClickEnv) (painAreas : List PainArea)
    (clickX clickY : ℚ) (nw nh : Nat)
    (hiw : 0 < env.imageWidth) (hih : 0 < env.imageHeight) :
    (reachesSampling env clickX clickY nw nh →
      0 ≤ (canvasClick env clickX clickY nw nh).1 ∧
      (canvasClick env clickX clickY nw nh).1 < (nw : Int) ∧
      0 ≤ (canvasClick env clickX clickY nw nh).2 ∧
      (canvasClick env clickX clickY nw nh).2 < (nh : Int)) ∧
    ((clickX = env.imageWidth ∨ clickY = env.imageHeight) →
      handleImageClick env painAreas clickX clickY = painAreas) := by
  constructor
  · rintro ⟨-, -, -, -, hguard⟩
    push_neg at hguard
    exact ⟨hguard.1, hguard.2.1, hguard.2.2.1, hguard.2.2.2⟩
  · intro hedge
    unfold handleImageClick
    by_cases h1 : clickX < 0 ∨ clickX > env.imageWidth ∨ clickY < 0 ∨ clickY > env.imageHeight
    · simp [handleImageClickGen, h1]
    · rcases hc : env.canvas with _ | ⟨nw2, nh2⟩
      · simp [handleImageClickGen, h1, hc]
      · by_cases h2 : nw2 = 0 ∨ nh2 = 0
        · simp [handleImageClickGen, h1, hc, h2]
        · by_cases h3 : env.ctxOk
          · have h4 : (canvasClick env clickX clickY nw2 nh2).1 < 0 ∨
                (canvasClick env clickX clickY nw2 nh2).1 ≥ (nw2 : Int) ∨
                (canvasClick env clickX clickY nw2 nh2).2 < 0 ∨
                (canvasClick env clickX clickY nw2 nh2).2 ≥ (nh2 : Int) := by
              rcases hedge with he | he
              · refine Or.inr (Or.inl ?_)
                unfold canvasClick jsRound
                rw [he, div_self (ne_of_gt hiw), one_mul]
                have hfl : (⌊((nw2 : ℚ)) + 1/2⌋ : Int) = (nw2 : Int) := by
                  rw [Int.floor_eq_iff]
                  constructor
                  · push_cast
                    linarith
                  · push_cast
                    linarith
                rw [hfl]
              · refine Or.inr (Or.inr (Or.inr ?_))
                unfold canvasClick jsRound
                rw [he, div_self (ne_of_gt hih), one_mul]
                have hfl : (⌊((nh2 : ℚ)) + 1/2⌋ : Int) = (nh2 : Int) := by
                  rw [Int.floor_eq_iff]
                  constructor
                  · push_cast
                    linarith
                  · push_cast
                    linarith
                rw [hfl]
            simp [handleImageClickGen, h1, hc, h2, h3, h4]
          · simp [handleImageClickGen, h1, hc, h2, h3]

/-- Witness for C10: inside the demo raster the sample is in bounds, and a
click exactly on the right edge (x = imageWidth = 100) adds no record. -/
theorem c10_witness :
    (0 ≤ (canvasClick demoEnv 50 60 400 800).1 ∧
      (canvasClick demoEnv 50 60 400 800).1 < (400 : Int) ∧
      0 ≤ (canvasClick demoEnv 50 60 400 800).2 ∧
      (canvasClick demoEnv 50 60 400 800).2 < (800 : Int)) ∧
    handleImageClick demoEnv demoStore 100 50 = demoStore :=
  ⟨(c10_sampling_guard demoEnv demoStore 50 60 400 800 (by decide) (by decide)).1 (by decide),
   (c10_sampling_guard demoEnv demoStore 100 50 400 800 (by decide) (by decide)).2 (Or.inl rfl)⟩

/-! Nearest-centroid machinery. -/

lemma distSq_nonneg (hsp : Hotspot) (iw ih cx cy : ℚ) : 0 ≤ distSq hsp iw ih cx cy :=
  add_nonneg (sq_nonneg _) (sq_nonneg _)

/-- Transport a squared-distance comparison to the Euclidean distances the
source actually computes with `Math.sqrt`. -/
lemma sqrt_distSq_le (a b : Hotspot) (iw ih cx cy : ℚ)
    (hab : distSq a iw ih cx cy ≤ distSq b iw ih cx cy) :
    Real.sqrt ((distSq a iw ih cx cy : ℚ) : ℝ) ≤ Real.sqrt ((distSq b iw ih cx cy : ℚ) : ℝ) :=
  Real.sqrt_le_sqrt (by exact_mod_cast hab)

/-- Strict version of `sqrt_distSq_le`. -/
lemma sqrt_distSq_lt (a b : Hotspot) (iw ih cx cy : ℚ)
    (hab : distSq a iw ih cx cy < distSq b iw ih cx cy) :
    Real.sqrt ((distSq a iw ih cx cy : ℚ) : ℝ) < Real.sqrt ((distSq b iw ih cx cy : ℚ) : ℝ) :=
  Real.sqrt_lt_sqrt (by exact_mod_cast distSq_nonneg a iw ih cx cy) (by exact_mod_cast hab)

/-- The loop invariant of the nearest-centroid fold: starting from an
incumbent `b`, the fold returns the first element of `b :: l` attaining the
minimal squared distance — every element ties or loses against it, and every
element strictly before it loses strictly. -/
lemma foldl_resolveStep_firstmin (iw ih cx cy : ℚ) :
    ∀ (l : List Hotspot) (b : Hotspot),
      ∃ r : Hotspot,
        l.foldl (resolveStep iw ih cx cy) (some (b, distSq b iw ih cx cy)) =
          some (r, distSq r iw ih cx cy) ∧
        ∃ l₁ l₂ : List Hotspot, b :: l = l₁ ++ r :: l₂ ∧
          (∀ x ∈ b :: l, distSq r iw ih cx cy ≤ distSq x iw ih cx cy) ∧
          (∀ x ∈ l₁, distSq r iw ih cx cy < distSq x iw ih cx cy) := by
  intro l
  induction l with
  | nil =>
      intro b
      exact ⟨b, rfl, [], [], rfl, by simp, by simp⟩
  | cons x xs ihx =>
      intro b
      rw [List.foldl_cons]
      by_cases hlt : distSq x iw ih cx cy < distSq b iw ih cx cy
      · have hstep : resolveStep iw ih cx cy (some (b, distSq b iw ih cx cy)) x =
            some (x, distSq x iw ih cx cy) := by
          simp [resolveStep, hlt]
        rw [hstep]
        obtain ⟨r, hfold, l₁, l₂, hdec, hmin, hstrict⟩ := ihx x
        refine ⟨r, hfold, b :: l₁, l₂, ?_, ?_, ?_⟩
        · rw [List.cons_append, ← hdec]
        · intro y hy
          rcases List.mem_cons.mp hy with rfl | hy2
          · exact le_trans (hmin x (List.mem_cons_self x xs)) (le_of_lt hlt)
          · exact hmin y hy2
        · intro y hy
          rcases List.mem_cons.mp hy with rfl | hy2
          · exact lt_of_le_of_lt (hmin x (List.mem_cons_self x xs)) hlt
          · exact hstrict y hy2
      · have hstep : resolveStep iw ih cx cy (some (b, distSq b iw ih cx cy)) x =
            some (b, distSq b iw ih cx cy) := by
          simp [resolveStep, hlt]
        rw [hstep]
        obtain ⟨r, hfold, l₁, l₂, hdec, hmin, hstrict⟩ := ihx b
        have hbx : distSq b iw ih cx cy ≤ distSq x iw ih cx cy := le_of_not_lt hlt
        cases l₁ with
        | nil =>
            rw [List.nil_append] at hdec
            injection hdec with hb htl
            refine ⟨r, hfold, [], x :: xs, ?_, ?_, by simp⟩
            · rw [List.nil_append, ← hb]
            · intro y hy
              rcases List.mem_cons.mp hy with rfl | hy2
              · rw [← hb]
              · rcases List.mem_cons.mp hy2 with rfl | hy3
                · rw [← hb]
                  exact hbx
                · exact hmin y (List.mem_cons_of_mem b hy3)
        | cons c l₁t =>
            rw [List.cons_append] at hdec
            injection hdec with hb htl
            refine ⟨r, hfold, b :: x :: l₁t, l₂, ?_, ?_, ?_⟩
            · rw [List.cons_append, List.cons_append, ← htl]
            · intro y hy
              rcases List.mem_cons.mp hy with rfl | hy2
              · exact hmin y (List.mem_cons_self y xs)
              · rcases List.mem_cons.mp hy2 with rfl | hy3
                · refine le_trans ?_ hbx
                  exact hmin b (List.mem_cons_self b xs)
                · exact hmin y (List.mem_cons_of_mem b hy3)
            · intro y hy
              rcases List.mem_cons.mp hy with rfl | hy2
              · have := hstrict c (List.mem_cons_self c l₁t)
                rw [← hb] at this
                exact this
              · rcases List.mem_cons.mp hy2 with rfl | hy3
                · have := hstrict c (List.mem_cons_self c l₁t)
                  rw [← hb] at this
                  exact lt_of_lt_of_le this hbx
                · exact hstrict y (List.mem_cons_of_mem c hy3)

/-- Unfolding of the accepted-click path: when every guard up to the alpha
test passes and the nearest-centroid search returns a hotspot, the handler
appends exactly the record `mkPainArea` builds. -/
lemma handleImageClickGen_accept (frontCat backCat : List Hotspot) (env : ClickEnv)
    (painAreas : List PainArea) (clickX clickY : ℚ) (nw nh : Nat) (hsp : Hotspot)
    (hreach : reachesSampling env clickX clickY nw nh)
    (halpha : ¬ env.alpha (canvasClick env clickX clickY nw nh).1
        (canvasClick env clickX clickY nw nh).2 < 10)
    (hfind : findClosest (if env.currentView = BodyView.front then frontCat else backCat)
        env.imageWidth env.imageHeight clickX clickY = some hsp) :
    handleImageClickGen frontCat backCat env painAreas clickX clickY =
      painAreas ++ [mkPainArea env.now env.currentView hsp clickX clickY] := by
  obtain ⟨hb, hc, hdims, hctx, hguard⟩ := hreach
  unfold clickOutsideBounds at hb
  have hne : ¬ (if env.currentView = BodyView.front then frontCat else backCat).length = 0 := by
    intro hlen
    rw [List.length_eq_zero] at hlen
    rw [hlen] at hfind
    simp [findClosest] at hfind
  simp [handleImageClickGen, hb, hc, hdims, hctx, hguard, halpha, hne, hfind]

/-- C1: for every click that passes all guards up to the alpha test, with a
nonempty catalog for the active view, the handler appends the record built
from a catalog entry `r` that is first-minimal for Euclidean distance from
the click to the bounding-box centers: the catalog splits as
`l1 ++ r :: l2` where every entry ties or loses against `r` and every entry
before `r` loses strictly (ties are won by the earliest entry in catalog
iteration order). -/
theorem c1_nearest_centroid (frontCat backCat : List Hotspot) (env : ClickEnv)
    (painAreas : List PainArea) (clickX clickY : ℚ) (nw nh : Nat)
    (hreach : reachesSampling env clickX clickY nw nh)
    (halpha : ¬ env.alpha (canvasClick env clickX clickY nw nh).1
        (canvasClick env clickX clickY nw nh).2 < 10)
    (hne : (if env.currentView = BodyView.front then frontCat else backCat) ≠ []) :
    ∃ (r : Hotspot) (l₁ l₂ : List Hotspot),
      (if env.currentView = BodyView.front then frontCat else backCat) = l₁ ++ r :: l₂ ∧
      handleImageClickGen frontCat backCat env painAreas clickX clickY =
        painAreas ++ [mkPainArea env.now env.currentView r clickX clickY] ∧
      (∀ h ∈ (if env.currentView = BodyView.front then frontCat else backCat),
        Real.sqrt ((distSq r env.imageWidth env.imageHeight clickX clickY : ℚ) : ℝ) ≤
          Real.sqrt ((distSq h env.imageWidth env.imageHeight clickX clickY : ℚ) : ℝ)) ∧
      (∀ h ∈ l₁,
        Real.sqrt ((distSq r env.imageWidth env.imageHeight clickX clickY : ℚ) : ℝ) <
          Real.sqrt ((distSq h env.imageWidth env.imageHeight clickX clickY : ℚ) : ℝ)) := by
  cases hLl : (if env.currentView = BodyView.front then frontCat else backCat) with
  | nil => exact absurd hLl hne
  | cons hd tl =>
      obtain ⟨r, hfoldeq, l₁, l₂, hdec, hmin, hstrict⟩ :=
        foldl_resolveStep_firstmin env.imageWidth env.imageHeight clickX clickY tl hd
      have hfind : findClosest (if env.currentView = BodyView.front then frontCat else backCat)
          env.imageWidth env.imageHeight clickX clickY = some r := by
        rw [hLl]
        unfold findClosest
        rw [List.foldl_cons]
        have hstep0 : resolveStep env.imageWidth env.imageHeight clickX clickY none hd =
            some (hd, distSq hd env.imageWidth env.imageHeight clickX clickY) := rfl
        rw [hstep0, hfoldeq]
        rfl
      refine ⟨r, l₁, l₂, hdec, ?_, ?_, ?_⟩
      · exact handleImageClickGen_accept frontCat backCat env painAreas clickX clickY
          nw nh r hreach halpha hfind
      · intro h hh
        exact sqrt_distSq_le r h env.imageWidth env.imageHeight clickX clickY (hmin h hh)
      · intro h hh
        exact sqrt_distSq_lt r h env.imageWidth env.imageHeight clickX clickY (hstrict h hh)

/-- Catalog entries used to exercise the resolver in witnesses: two entries
with distinct centers, and a third sharing its bounding box with the second
to force an exact distance tie. -/
def probeHotspotA : Hotspot :=
  { id := 21, name := ("Left Patella"), x := 0.345, y := 0.72, width := 0.08, height := 0.04 }

/-- Second probe entry, same box as `probeHotspotC` but listed earlier. -/
def probeHotspotB : Hotspot :=
  { id := 15, name := ("Umbilicus"), x := 0.48, y := 0.38, width := 0.04, height := 0.03 }

/-- Third probe entry: a geometric duplicate of `probeHotspotB`. -/
def probeHotspotC : Hotspot :=
  { id := 16, name := ("Left Flank (Mid Abdomen)"), x := 0.48, y := 0.38, width := 0.04, height := 0.03 }

/-- Witness for C1 on a three-entry catalog with a distance tie between the
second and third entries. -/
theorem c1_witness :
    ∃ (r : Hotspot) (l₁ l₂ : List Hotspot),
      (if demoEnv.currentView = BodyView.front
        then [probeHotspotA, probeHotspotB, probeHotspotC] else []) = l₁ ++ r :: l₂ ∧
      handleImageClickGen [probeHotspotA, probeHotspotB, probeHotspotC] [] demoEnv [] 50 80 =
        [] ++ [mkPainArea demoEnv.now demoEnv.currentView r 50 80] ∧
      (∀ h ∈ (if demoEnv.currentView = BodyView.front
          then [probeHotspotA, probeHotspotB, probeHotspotC] else []),
        Real.sqrt ((distSq r demoEnv.imageWidth demoEnv.imageHeight 50 80 : ℚ) : ℝ) ≤
          Real.sqrt ((distSq h demoEnv.imageWidth demoEnv.imageHeight 50 80 : ℚ) : ℝ)) ∧
      (∀ h ∈ l₁,
        Real.sqrt ((distSq r demoEnv.imageWidth demoEnv.imageHeight 50 80 : ℚ) : ℝ) <
          Real.sqrt ((distSq h demoEnv.imageWidth demoEnv.imageHeight 50 80 : ℚ) : ℝ)) :=
  c1_nearest_centroid [probeHotspotA, probeHotspotB, probeHotspotC] [] demoEnv [] 50 80 400 800
    (by decide) (by decide) (by decide)

/-- C5 counterexample: an accepted click at displayed position (85, 85)
stores coordinates (100, 100), not the original click coordinates: the
handler divides both coordinates by the display scale 0.85. -/
theorem c5_counterexample :
    (handleImageClick demoEnv [] 85 85).map PainArea.coordinates =
      [{ x := 100, y := 100 }] ∧ ((100 : ℚ)) ≠ 85 := by
  decide

/-- C5 amended: on an accepted match the new record copies the hotspot's
display name verbatim into `region`, defaults `intensity` to 5, encodes the
active view and the matched group id in `notes`, and stores the click
coordinates divided by the CSS display scale 0.85 (`x = clickX / 0.85`,
`y = clickY / 0.85`) rather than the raw click coordinates. -/
theorem c5_amended_record_fields (frontCat backCat : List Hotspot) (env : ClickEnv)
    (painAreas : List PainArea) (clickX clickY : ℚ) (nw nh : Nat) (hsp : Hotspot)
    (hreach : reachesSampling env clickX clickY nw nh)
    (halpha : ¬ env.alpha (canvasClick env clickX clickY nw nh).1
        (canvasClick env clickX clickY nw nh).2 < 10)
    (hfind : findClosest (if env.currentView = BodyView.front then frontCat else backCat)
        env.imageWidth env.imageHeight clickX clickY = some hsp) :
    handleImageClickGen frontCat backCat env painAreas clickX clickY =
      painAreas ++ [{ id := ("point-") ++ toString env.now
                    , region := hsp.name
                    , intensity := 5
                    , coordinates := { x := clickX / 0.85, y := clickY / 0.85 }
                    , notes := mkNotes env.currentView hsp }] :=
  handleImageClickGen_accept frontCat backCat env painAreas clickX clickY nw nh hsp
    hreach halpha hfind

/-- Witness for the amended C5 on a singleton catalog. -/
theorem c5_witness :
    handleImageClickGen [probeHotspotA] [] demoEnv demoStore 85 85 =
      demoStore ++ [{ id := ("point-") ++ toString demoEnv.now
                    , region := probeHotspotA.name
                    , intensity := 5
                    , coordinates := { x := 85 / 0.85, y := 85 / 0.85 }
                    , notes := mkNotes demoEnv.currentView probeHotspotA }] :=
  c5_amended_record_fields [probeHotspotA] [] demoEnv demoStore 85 85 400 800 probeHotspotA
    (by decide) (by decide) (by decide)

/-! Notes tagging and the view filter. -/

lemma patMatchesHere_append (pat rest : List Char) :
    patMatchesHere pat (pat ++ rest) = true := by
  induction pat with
  | nil => rfl
  | cons p ps ihp => simp [patMatchesHere, ihp]

lemma patOccurs_of_here (pat text : List Char) (h : patMatchesHere pat text = true) :
    patOccurs pat text = true := by
  cases text with
  | nil => exact h
  | cons c cs => simp [patOccurs, h]

lemma toList_append (s t : String) : (s ++ t).toList = s.toList ++ t.toList := by
  simp [String.toList, String.data_append]

/-- A string includes each of its prefixes. -/
lemma strIncludes_self_append (a t : String) : strIncludes (a ++ t) a = true := by
  unfold strIncludes
  apply patOccurs_of_here
  rw [toList_append]
  exact patMatchesHere_append a.toList t.toList

/-- The notes string always starts with its own view tag. -/
lemma mkNotes_eq_tag_append (view : BodyView) (hsp : Hotspot) :
    ∃ t : String, mkNotes view hsp = (("View: ") ++ viewStr view) ++ t := by
  unfold mkNotes
  cases hd : hsp.isDetail
  · exact ⟨(", RegionID: ") ++ toString hsp.id, by simp [String.append_assoc]⟩
  · exact ⟨(", RegionID: ") ++ toString hsp.id ++ (", Detail: ") ++ hsp.name,
      by simp [String.append_assoc]⟩

/-- Substring search recovers the tag a record was created with. -/
lemma mkNotes_includes_own_tag (view : BodyView) (hsp : Hotspot) :
    strIncludes (mkNotes view hsp) (("View: ") ++ viewStr view) = true := by
  obtain ⟨t, ht⟩ := mkNotes_eq_tag_append view hsp
  rw [ht]
  exact strIncludes_self_append _ t

/-- No front-catalog entry produces notes containing the back tag (checked
entry by entry over the catalog data: no hotspot name or group id embeds the
other view's tag). -/
lemma front_notes_exclude_back : ∀ h ∈ frontHotspots,
    strIncludes (mkNotes BodyView.front h) (("View: ") ++ viewStr BodyView.back) = false := by
  decide

/-- No back-catalog entry produces notes containing the front tag. -/
lemma back_notes_exclude_front : ∀ h ∈ backHotspots,
    strIncludes (mkNotes BodyView.back h) (("View: ") ++ viewStr BodyView.front) = false := by
  decide

/-- C6: in a store holding one record created on the front view and one on
the back view (from any entries of the respective catalogs), filtering by
front returns exactly the front record and filtering by back exactly the
back one; in general the filter returns all and only the records whose
notes contain the requested view's tag as a substring. -/
theorem c6_view_isolation (h1 h2 : Hotspot) (hm1 : h1 ∈ frontHotspots) (hm2 : h2 ∈ backHotspots)
    (r1 r2 : PainArea) (hn1 : r1.notes = mkNotes BodyView.front h1)
    (hn2 : r2.notes = mkNotes BodyView.back h2) :
    filterByView [r1, r2] BodyView.front = [r1] ∧
    filterByView [r1, r2] BodyView.back = [r2] ∧
    ∀ (store : List PainArea) (v : BodyView) (a : PainArea),
      a ∈ filterByView store v ↔
        a ∈ store ∧ strIncludes a.notes (("View: ") ++ viewStr v) = true := by
  have hf1 : strIncludes r1.notes (("View: ") ++ viewStr BodyView.front) = true := by
    rw [hn1]
    exact mkNotes_includes_own_tag BodyView.front h1
  have hf2 : strIncludes r2.notes (("View: ") ++ viewStr BodyView.front) = false := by
    rw [hn2]
    exact back_notes_exclude_front h2 hm2
  have hb1 : strIncludes r1.notes (("View: ") ++ viewStr BodyView.back) = false := by
    rw [hn1]
    exact front_notes_exclude_back h1 hm1
  have hb2 : strIncludes r2.notes (("View: ") ++ viewStr BodyView.back) = true := by
    rw [hn2]
    exact mkNotes_includes_own_tag BodyView.back h2
  refine ⟨?_, ?_, ?_⟩
  · simp [filterByView, List.filter, hf1, hf2]
  · simp [filterByView, List.filter, hb1, hb2]
  · intro store v a
    simp [filterByView, List.mem_filter]

/-- Witness for C6 with the first entry of each catalog. -/
theorem c6_witness :
    filterByView
      [{ id := ("point-1"), region := ("Forehead (Central Superior)"), intensity := 5
       , coordinates := { x := 40, y := 150 }
       , notes := mkNotes BodyView.front
           { id := 1, name := ("Forehead (Central Superior)")
           , x := 0.45, y := 0.005, width := 0.1, height := 0.02 } },
       { id := ("point-2"), region := ("Vertex (Top of Head - Posterior)"), intensity := 8
       , coordinates := { x := 55, y := 30 }
       , notes := mkNotes BodyView.back
           { id := 25, name := ("Vertex (Top of Head - Posterior)")
           , x := 0.45, y := 0.005, width := 0.1, height := 0.02 } }]
      BodyView.front =
      [{ id := ("point-1"), region := ("Forehead (Central Superior)"), intensity := 5
       , coordinates := { x := 40, y := 150 }
       , notes := mkNotes BodyView.front
           { id := 1, name := ("Forehead (Central Superior)")
           , x := 0.45, y := 0.005, width := 0.1, height := 0.02 } }] :=
  (c6_view_isolation
    { id := 1, name := ("Forehead (Central Superior)")
    , x := 0.45, y := 0.005, width := 0.1, height := 0.02 }
    { id := 25, name := ("Vertex (Top of Head - Posterior)")
    , x := 0.45, y := 0.005, width := 0.1, height := 0.02 }
    (by decide) (by decide) _ _ rfl rfl).1

/-- C3 refutation (code bug): two accepted clicks handled at the same
`Date.now()` millisecond both receive the id `point-1700000000000`, so
after the second click the store holds two records sharing an id — the
uniqueness invariant fails. -/
theorem c3_duplicate_ids_same_millisecond :
    ((handleImageClick demoEnv (handleImageClick demoEnv [] 50 60) 70 80).map PainArea.id) =
      [("point-1700000000000"), ("point-1700000000000")] ∧
    ¬ (((handleImageClick demoEnv (handleImageClick demoEnv [] 50 60) 70 80).map
        PainArea.id).Nodup) := by
  decide

/-- C9: every entry of both catalogs has all four bounding-box fields inside
the unit interval (checked entry by entry over the catalog data). -/
theorem c9_bounding_boxes_normalized :
    (∀ h ∈ frontHotspots, hotspotInUnitBox h) ∧ ∀ h ∈ backHotspots, hotspotInUnitBox h := by
  decide

end PainMapping
